import Mathlib

set_option maxHeartbeats 1000000

/-
  Shallow embedding of the `antland` ant-colony simulation (JavaScript / p5.js).

  JavaScript numbers are modelled as exact rationals (ℚ).  Transcendental
  primitives of the host language (`Math.cos`, `Math.sin`, `Math.atan2`,
  `Math.sqrt`, and the float value `Math.PI`) are threaded through the
  definitions as an explicit parameter record `MathPrims`, since none of the
  verified properties depend on their numeric values.  `Math.random()` draws
  are passed as explicit arguments, one per call site in program order.
  Mutable JS arrays become functions `ℕ → ℚ` (reads are application, writes
  are `Function.update`); JS `Set` becomes `Finset ℕ`.
-/

namespace Antland

/-- A 2D point / vector `{x, y}`. -/
abbrev Vec := ℚ × ℚ

/-- Per-channel pheromone settings (`CONFIG.pheromone.toFood` / `.toNest`
from `src/unnamed/part_003`; the `color` field is rendering-only and
omitted). -/
structure ChannelConfig where
  strength : ℚ
  evaporationRate : ℚ
  diffusionRate : ℚ

/-- The subset of the global `CONFIG` object (`src/unnamed/part_003`) read by
the modelled code.  Rendering-only entries (colors, shadows, stats) are
omitted. -/
structure Config where
  paused : Bool
  speedMultiplier : ℚ
  antCount : ℕ
  antMaxCount : ℕ
  antSize : ℚ
  antSpeed : ℚ
  turnSpeed : ℚ
  sensorAngle : ℚ
  sensorDistance : ℚ
  explorationRate : ℚ
  spawnRate : ℚ
  energyCapacity : ℚ
  energyConsumption : ℚ
  carrierSpeed : ℚ
  returnHomeBias : ℚ
  toFood : ChannelConfig
  toNest : ChannelConfig
  resolution : ℚ
  maxIntensity : ℚ
  nestSize : ℚ
  pheromoneFadeThreshold : ℚ
  showPheromones : Bool
  trailHistory : Bool
  trailHistoryLength : ℕ

/-- The concrete values of `CONFIG` from `src/unnamed/part_003`.  `Math.PI`
(a float) is passed in as the exact rational value of the IEEE-754 double
closest to π. -/
def defaultConfig (piVal : ℚ) : Config where
  paused := false
  speedMultiplier := 1
  antCount := 100
  antMaxCount := 500
  antSize := 3
  antSpeed := 2
  turnSpeed := 0.15
  sensorAngle := piVal / 4
  sensorDistance := 15
  explorationRate := 0.1
  spawnRate := 0.5
  energyCapacity := 100
  energyConsumption := 0.05
  carrierSpeed := 0.7
  returnHomeBias := 0.5
  toFood := { strength := 100, evaporationRate := 0.995, diffusionRate := 0.1 }
  toNest := { strength := 100, evaporationRate := 0.995, diffusionRate := 0.1 }
  resolution := 5
  maxIntensity := 500
  nestSize := 30
  pheromoneFadeThreshold := 5
  showPheromones := true
  trailHistory := false
  trailHistoryLength := 100

/-- The IEEE-754 double closest to π, i.e. the exact value of `Math.PI`. -/
def jsPi : ℚ := 884279719003555 / 281474976710656

/-- Host-language math primitives used by the simulation.  Their numeric
behaviour is irrelevant to every verified claim, so they are kept abstract. -/
structure MathPrims where
  cos : ℚ → ℚ
  sin : ℚ → ℚ
  atan2 : ℚ → ℚ → ℚ
  sqrt : ℚ → ℚ
  pi : ℚ

end Antland

namespace Antland

/-! ## PheromoneSystem (`src/js/pheromone.js`)

The mutable fields of the JS class.  The two grids are JS arrays of length
`cols * rows` modelled as total functions `ℕ → ℚ` (indices `≥ cols * rows`
are never written by the source and are irrelevant to every claim).  The
pre-computed `this.neighbors` table is recovered by `neighborsAt` below.
The p5 graphics canvases are summarised by the flag `canvasReady`
(`this.canvasToFood !== null`); actual drawing is external rendering. -/
structure PheromoneSystem where
  resolution : ℚ
  cols : ℕ
  rows : ℕ
  toFoodGrid : ℕ → ℚ
  toNestGrid : ℕ → ℚ
  dirtyRegions : Finset ℕ
  visualizationNeedsUpdate : Bool
  canvasReady : Bool

/-- `getNeighborIndices(col, row)` (pheromone.js lines 40-59).  The double
loop `y = -1..1`, `x = -1..1` with the `(0,0)` self-skip is unrolled into
the literal offset list, in iteration order. -/
def neighborOffsets : List (ℤ × ℤ) :=
  [(-1, -1), (0, -1), (1, -1), (-1, 0), (1, 0), (-1, 1), (0, 1), (1, 1)]

/-- Body of `getNeighborIndices`: keep each in-bounds offset's cell index
`newRow * cols + newCol`. -/
def getNeighborIndices (cols rows : ℕ) (col row : ℕ) : List ℕ :=
  neighborOffsets.filterMap fun xy =>
    let newCol : ℤ := (col : ℤ) + xy.1
    let newRow : ℤ := (row : ℤ) + xy.2
    if 0 ≤ newCol ∧ newCol < (cols : ℤ) ∧ 0 ≤ newRow ∧ newRow < (rows : ℤ) then
      some (newRow * (cols : ℤ) + newCol).toNat
    else none

/-- The constructor (and `resize`) pre-compute
`this.neighbors[row * cols + col] = getNeighborIndices(col, row)`;
for an index `i < cols * rows` the stored entry is recovered as
`getNeighborIndices (i % cols) (i / cols)`. -/
def PheromoneSystem.neighborsAt (ps : PheromoneSystem) (i : ℕ) : List ℕ :=
  getNeighborIndices ps.cols ps.rows (i % ps.cols) (i / ps.cols)

/-- `posToIndex(position)` (pheromone.js lines 62-71): grid cell of a world
position, or the sentinel `-1` when outside the grid. -/
def PheromoneSystem.posToIndex (ps : PheromoneSystem) (position : Vec) : ℤ :=
  let col : ℤ := ⌊position.1 / ps.resolution⌋
  let row : ℤ := ⌊position.2 / ps.resolution⌋
  if col < 0 ∨ (ps.cols : ℤ) ≤ col ∨ row < 0 ∨ (ps.rows : ℤ) ≤ row then -1
  else row * (ps.cols : ℤ) + col

/-- `deposit(grid, position, amount)` (pheromone.js lines 84-92) applied to
the "to food" grid (`depositToFood`). -/
def PheromoneSystem.depositToFood (cfg : Config) (ps : PheromoneSystem)
    (position : Vec) (amount : ℚ) : PheromoneSystem :=
  let index := ps.posToIndex position
  if index ≠ -1 then
    { ps with
      toFoodGrid := Function.update ps.toFoodGrid index.toNat
        (min (ps.toFoodGrid index.toNat + amount) cfg.maxIntensity)
      dirtyRegions := insert index.toNat ps.dirtyRegions
      visualizationNeedsUpdate := true }
  else ps

/-- `deposit(grid, position, amount)` applied to the "to nest" grid
(`depositToNest`). -/
def PheromoneSystem.depositToNest (cfg : Config) (ps : PheromoneSystem)
    (position : Vec) (amount : ℚ) : PheromoneSystem :=
  let index := ps.posToIndex position
  if index ≠ -1 then
    { ps with
      toNestGrid := Function.update ps.toNestGrid index.toNat
        (min (ps.toNestGrid index.toNat + amount) cfg.maxIntensity)
      dirtyRegions := insert index.toNat ps.dirtyRegions
      visualizationNeedsUpdate := true }
  else ps

/-- `getPheromoneAt(grid, position)` (pheromone.js lines 95-103). -/
def PheromoneSystem.getPheromoneAt (ps : PheromoneSystem) (grid : ℕ → ℚ)
    (position : Vec) : ℚ :=
  let index := ps.posToIndex position
  if index ≠ -1 then grid index.toNat else 0

/-- The evaporation applied to one cell value (pheromone.js lines 136-138):
only values above the fade threshold are multiplied by the rate, and a
result that falls below the threshold is snapped to `0`. -/
def evaporateValue (threshold rate v : ℚ) : ℚ :=
  if v > threshold then
    let w := v * rate
    if w < threshold then 0 else w
  else v

/-- One iteration of the inner diffusion loop (pheromone.js lines 154-167, one
channel): `next[nIdx] += diffAmount; next[i] -= diffAmount`. -/
def depositNeighbor (i : ℕ) (diffAmount : ℚ) (next : ℕ → ℚ) (nIdx : ℕ) : ℕ → ℚ :=
  let next1 := Function.update next nIdx (next nIdx + diffAmount)
  Function.update next1 i (next1 i - diffAmount)

/-- One iteration of the outer update loop (pheromone.js lines 131-170)
restricted to a single channel: read the *old* grid value, evaporate it into
the `next` buffer, then distribute `value * diffusionRate / neighborCount`
to each pre-computed neighbor.  Note that the evaporation write
`next[i] = value` is a plain assignment into the double buffer. -/
def channelCellStep (threshold rate diffRate : ℚ) (neighbors : ℕ → List ℕ)
    (grid : ℕ → ℚ) (next : ℕ → ℚ) (i : ℕ) : ℕ → ℚ :=
  let value := grid i
  let evaporated := evaporateValue threshold rate value
  let next1 := if value > threshold then Function.update next i evaporated else next
  if evaporated > threshold then
    (neighbors i).foldl
      (depositNeighbor i (evaporated * diffRate / ((neighbors i).length : ℚ))) next1
  else next1

/-- The full evaporation-and-diffusion pass of `update()` for one channel:
fold the per-cell step over `i = 0 .. cols*rows - 1`, starting from the
copied buffer `next = [...grid]`. -/
def channelUpdate (threshold rate diffRate : ℚ) (neighbors : ℕ → List ℕ)
    (n : ℕ) (grid : ℕ → ℚ) : ℕ → ℚ :=
  (List.range n).foldl (channelCellStep threshold rate diffRate neighbors grid) grid

/-- The double buffers and dirty-region set threaded through the update
loop of `PheromoneSystem.update` (pheromone.js lines 127-170). -/
structure UpdateBuffers where
  toFoodNext : ℕ → ℚ
  toNestNext : ℕ → ℚ
  dirty : Finset ℕ

/-- One iteration of the combined update loop (pheromone.js lines 131-170),
handling both channels and the dirty-region bookkeeping exactly as the
source does. -/
def updateCellStep (cfg : Config) (neighbors : ℕ → List ℕ)
    (toFoodGrid toNestGrid : ℕ → ℚ) (b : UpdateBuffers) (i : ℕ) : UpdateBuffers :=
  let threshold := cfg.pheromoneFadeThreshold
  let toFoodValue := toFoodGrid i
  let toNestValue := toNestGrid i
  let fv := evaporateValue threshold cfg.toFood.evaporationRate toFoodValue
  let nv := evaporateValue threshold cfg.toNest.evaporationRate toNestValue
  let b := if toFoodValue > threshold then
      { b with toFoodNext := Function.update b.toFoodNext i fv, dirty := insert i b.dirty }
    else b
  let b := if toNestValue > threshold then
      { b with toNestNext := Function.update b.toNestNext i nv, dirty := insert i b.dirty }
    else b
  if fv > threshold ∨ nv > threshold then
    (neighbors i).foldl (fun acc nIdx =>
      { toFoodNext :=
          if fv > threshold then
            depositNeighbor i (fv * cfg.toFood.diffusionRate / ((neighbors i).length : ℚ))
              acc.toFoodNext nIdx
          else acc.toFoodNext
        toNestNext :=
          if nv > threshold then
            depositNeighbor i (nv * cfg.toNest.diffusionRate / ((neighbors i).length : ℚ))
              acc.toNestNext nIdx
          else acc.toNestNext
        dirty :=
          let d := if fv > threshold then insert nIdx acc.dirty else acc.dirty
          if nv > threshold then insert nIdx d else d }) b
  else b

/-- `updateAllVisualizations()` (pheromone.js lines 222-259): a no-op unless
the canvases exist; the drawing itself is external rendering, and the one
state effect is that `this.dirtyRegions` is cleared at the end. -/
def PheromoneSystem.updateAllVisualizations (ps : PheromoneSystem) : PheromoneSystem :=
  if ps.canvasReady then { ps with dirtyRegions := ∅ } else ps

/-- `update()` (pheromone.js lines 116-181): skip when paused, run the
evaporation/diffusion loop over both channels into fresh double buffers,
install the buffers, then redraw (and reset the flag) if needed. -/
def PheromoneSystem.update (cfg : Config) (ps : PheromoneSystem) : PheromoneSystem :=
  if cfg.paused then ps
  else
    let b0 : UpdateBuffers :=
      { toFoodNext := ps.toFoodGrid, toNestNext := ps.toNestGrid, dirty := ps.dirtyRegions }
    let b := (List.range (ps.cols * ps.rows)).foldl
      (updateCellStep cfg ps.neighborsAt ps.toFoodGrid ps.toNestGrid) b0
    let ps1 := { ps with toFoodGrid := b.toFoodNext, toNestGrid := b.toNestNext,
                         dirtyRegions := b.dirty }
    if ps1.visualizationNeedsUpdate ∧ cfg.showPheromones then
      { ps1.updateAllVisualizations with visualizationNeedsUpdate := false }
    else ps1

/-- The three sampled intensities returned by `sensePheromone`. -/
structure SenseResult where
  forward : ℚ
  left : ℚ
  right : ℚ
deriving DecidableEq

/-- `sensePheromone(grid, position, angle, sensorAngle, sensorDistance)`
(pheromone.js lines 184-212): project the three sensor points and read the
grid at each. -/
def PheromoneSystem.sensePheromone (prims : MathPrims) (ps : PheromoneSystem)
    (grid : ℕ → ℚ) (position : Vec) (angle sensorAngle sensorDistance : ℚ) :
    SenseResult :=
  let leftSensorAngle := angle - sensorAngle
  let rightSensorAngle := angle + sensorAngle
  let forwardSensor : Vec :=
    (position.1 + prims.cos angle * sensorDistance,
     position.2 + prims.sin angle * sensorDistance)
  let leftSensor : Vec :=
    (position.1 + prims.cos leftSensorAngle * sensorDistance,
     position.2 + prims.sin leftSensorAngle * sensorDistance)
  let rightSensor : Vec :=
    (position.1 + prims.cos rightSensorAngle * sensorDistance,
     position.2 + prims.sin rightSensorAngle * sensorDistance)
  { forward := ps.getPheromoneAt grid forwardSensor
    left := ps.getPheromoneAt grid leftSensor
    right := ps.getPheromoneAt grid rightSensor }

/-- Method-style presentation of `sensePheromone`, returning the receiver
next to the result: the method body (pheromone.js lines 184-212) contains
no assignment to `this`, so the receiver comes back untouched. -/
def PheromoneSystem.sensePheromoneM (prims : MathPrims) (ps : PheromoneSystem)
    (grid : ℕ → ℚ) (position : Vec) (angle sensorAngle sensorDistance : ℚ) :
    PheromoneSystem × SenseResult :=
  (ps, ps.sensePheromone prims grid position angle sensorAngle sensorDistance)

/-- `clear()` (pheromone.js lines 280-291): zero both grids, mark every cell
dirty, set the redraw flag and redraw. -/
def PheromoneSystem.clear (ps : PheromoneSystem) : PheromoneSystem :=
  let ps1 := { ps with
    toFoodGrid := fun _ => 0
    toNestGrid := fun _ => 0
    dirtyRegions := Finset.range (ps.cols * ps.rows)
    visualizationNeedsUpdate := true }
  ps1.updateAllVisualizations

/-- The copy loop of `resize` (pheromone.js lines 298-311): a fresh zero grid
of the new dimensions with the overlapping `rowsToCopy × colsToCopy`
sub-rectangle copied from the old grid at matching `(col, row)`
(`newGrid[row*newCols+col] = oldGrid[row*cols+col] || 0`; the `|| 0` guard
is vacuous because the copied index is always inside the old grid). -/
def resizeCopyGrid (oldCols newCols rowsToCopy colsToCopy : ℕ)
    (oldGrid : ℕ → ℚ) : ℕ → ℚ :=
  (List.range rowsToCopy).foldl (fun acc row =>
    (List.range colsToCopy).foldl (fun acc2 col =>
      Function.update acc2 (row * newCols + col) (oldGrid (row * oldCols + col))) acc)
    (fun _ => 0)

/-- `resize(width, height)` (pheromone.js lines 294-342): fresh zero grids of
the new dimensions with the overlap copied, and the canvas/dirty bookkeeping
when the canvases exist. -/
def PheromoneSystem.resize (ps : PheromoneSystem) (width height : ℚ) : PheromoneSystem :=
  let newCols := ⌈width / ps.resolution⌉.toNat
  let newRows := ⌈height / ps.resolution⌉.toNat
  let ps1 := { ps with
    cols := newCols
    rows := newRows
    toFoodGrid := resizeCopyGrid ps.cols newCols (min ps.rows newRows) (min ps.cols newCols)
      ps.toFoodGrid
    toNestGrid := resizeCopyGrid ps.cols newCols (min ps.rows newRows) (min ps.cols newCols)
      ps.toNestGrid }
  if ps1.canvasReady then
    { ps1 with dirtyRegions := ∅, visualizationNeedsUpdate := true }
  else ps1

end Antland

namespace Antland

/-! ## Simulation step ordering (`src/unnamed/part_000`) -/

/-- The component updates a single `Simulation.update` step can perform,
abstracted as events. -/
inductive StepEvent where
  | foodUpdate : StepEvent
  | pheromoneTick : StepEvent
  | antUpdate (antId : ℕ) : StepEvent
deriving DecidableEq

/-- Whether an event is an individual agent update. -/
def StepEvent.isAntUpdate : StepEvent → Bool
  | antUpdate _ => true
  | _ => false

/-- The order of the component updates in one unpaused `Simulation.update`
step (part_000 lines 90-95): `this.foodManager.update()`, then
`this.pheromoneSystem.update()`, then `this.antColony.update(this)`, which
iterates `this.ants` in order (part_004 lines 399-405).  When
`CONFIG.simulation.paused` is set, none of them run (line 90). -/
def simulationStepEvents (cfg : Config) (antIds : List ℕ) : List StepEvent :=
  if cfg.paused then []
  else [StepEvent.foodUpdate, StepEvent.pheromoneTick] ++ antIds.map StepEvent.antUpdate

/-- Every pheromone-field tick in the trace comes after every agent update. -/
def ticksAfterAgentUpdates (tr : List StepEvent) : Prop :=
  ∀ (i j : ℕ) (e : StepEvent), tr[i]? = some StepEvent.pheromoneTick → tr[j]? = some e →
    e.isAntUpdate = true → j < i

/-- Every pheromone-field tick in the trace comes before every agent update. -/
def ticksBeforeAgentUpdates (tr : List StepEvent) : Prop :=
  ∀ (i j : ℕ) (e : StepEvent), tr[i]? = some StepEvent.pheromoneTick → tr[j]? = some e →
    e.isAntUpdate = true → i < j

/-- C1, counterexample: in a step with a single agent, the pheromone pass runs
exactly once but *before* the agent update of that step, not after it, so the
claimed ordering fails on the code. -/
theorem C1_counterexample :
    (simulationStepEvents (defaultConfig jsPi) [0]).count StepEvent.pheromoneTick = 1 ∧
    ¬ ticksAfterAgentUpdates (simulationStepEvents (defaultConfig jsPi) [0]) := by
  constructor
  · rfl
  · unfold ticksAfterAgentUpdates
    intro h
    have h10 := h 1 2 (StepEvent.antUpdate 0) rfl rfl rfl
    omega

/-- C1 (amended): in every unpaused simulation step the pheromone field's
evaporation/diffusion pass is executed exactly once, and it runs *before*
all agent updates of that step — never interleaved with them. -/
theorem C1_field_tick_once_before_agents (cfg : Config) (antIds : List ℕ)
    (h : cfg.paused = false) :
    (simulationStepEvents cfg antIds).count StepEvent.pheromoneTick = 1 ∧
    ticksBeforeAgentUpdates (simulationStepEvents cfg antIds) := by
  unfold simulationStepEvents
  rw [h]
  simp only [Bool.false_eq_true, if_false]
  constructor
  · rw [List.count_append]
    have hz : (antIds.map StepEvent.antUpdate).count StepEvent.pheromoneTick = 0 := by
      rw [List.count_eq_zero]
      intro hmem
      rcases List.mem_map.mp hmem with ⟨a, _, ha⟩
      exact StepEvent.noConfusion ha
    rw [hz]
    rfl
  · unfold ticksBeforeAgentUpdates
    intro i j e hi hj he
    simp only [List.cons_append, List.nil_append] at hi hj
    have hi1 : i = 1 := by
      rcases i with _ | i
      · simp at hi
      rcases i with _ | n
      · rfl
      · exfalso
        rw [List.getElem?_cons_succ, List.getElem?_cons_succ, List.getElem?_map] at hi
        cases hn : antIds[n]? with
        | none => rw [hn] at hi; simp at hi
        | some a => rw [hn] at hi; simp at hi
    have hj2 : 2 ≤ j := by
      rcases j with _ | j
      · simp only [List.getElem?_cons_zero, Option.some.injEq] at hj
        rw [← hj] at he
        simp [StepEvent.isAntUpdate] at he
      rcases j with _ | n
      · rw [List.getElem?_cons_succ, List.getElem?_cons_zero] at hj
        have hje := Option.some.inj hj
        rw [← hje] at he
        simp [StepEvent.isAntUpdate] at he
      · omega
    omega

/-- Witness for `C1_field_tick_once_before_agents` at the default config and
a two-agent step. -/
theorem C1_witness :
    (simulationStepEvents (defaultConfig jsPi) [0, 1]).count StepEvent.pheromoneTick = 1 ∧
    ticksBeforeAgentUpdates (simulationStepEvents (defaultConfig jsPi) [0, 1]) :=
  C1_field_tick_once_before_agents (defaultConfig jsPi) [0, 1] rfl

end Antland

namespace Antland

/-- C5: for any position mapping to an in-bounds cell, `deposit` sets exactly
that cell of the chosen channel to `min (current + amount) maxIntensity` and
leaves every other cell of both channels unchanged; for an out-of-bounds
position it leaves the whole field state unchanged (silent no-op). -/
theorem C5_deposit_spec (cfg : Config) (ps : PheromoneSystem) (position : Vec)
    (amount : ℚ) (hamt : 0 ≤ amount) :
    (ps.posToIndex position = -1 →
      PheromoneSystem.depositToFood cfg ps position amount = ps ∧
      PheromoneSystem.depositToNest cfg ps position amount = ps) ∧
    (ps.posToIndex position ≠ -1 →
      ((PheromoneSystem.depositToFood cfg ps position amount).toFoodGrid
          (ps.posToIndex position).toNat
        = min (ps.toFoodGrid (ps.posToIndex position).toNat + amount) cfg.maxIntensity ∧
       (∀ j, j ≠ (ps.posToIndex position).toNat →
         (PheromoneSystem.depositToFood cfg ps position amount).toFoodGrid j
           = ps.toFoodGrid j) ∧
       (PheromoneSystem.depositToFood cfg ps position amount).toNestGrid
         = ps.toNestGrid) ∧
      ((PheromoneSystem.depositToNest cfg ps position amount).toNestGrid
          (ps.posToIndex position).toNat
        = min (ps.toNestGrid (ps.posToIndex position).toNat + amount) cfg.maxIntensity ∧
       (∀ j, j ≠ (ps.posToIndex position).toNat →
         (PheromoneSystem.depositToNest cfg ps position amount).toNestGrid j
           = ps.toNestGrid j) ∧
       (PheromoneSystem.depositToNest cfg ps position amount).toFoodGrid
         = ps.toFoodGrid)) := by
  constructor
  · intro h
    constructor
    · unfold PheromoneSystem.depositToFood
      simp [h]
    · unfold PheromoneSystem.depositToNest
      simp [h]
  · intro h
    refine ⟨⟨?_, ?_, ?_⟩, ?_, ?_, ?_⟩
    · unfold PheromoneSystem.depositToFood
      simp [h]
    · intro j hj
      unfold PheromoneSystem.depositToFood
      simp [h, Function.update_noteq hj]
    · unfold PheromoneSystem.depositToFood
      simp [h]
    · unfold PheromoneSystem.depositToNest
      simp [h]
    · intro j hj
      unfold PheromoneSystem.depositToNest
      simp [h, Function.update_noteq hj]
    · unfold PheromoneSystem.depositToNest
      simp [h]

/-- Witness for `C5_deposit_spec`: a 2×2 field at resolution 5, an in-bounds
deposit at (7, 2) landing in cell 1, and the nonnegative amount 3. -/
theorem C5_witness :
    let ps : PheromoneSystem :=
      { resolution := 5, cols := 2, rows := 2, toFoodGrid := fun _ => 1,
        toNestGrid := fun _ => 2, dirtyRegions := ∅,
        visualizationNeedsUpdate := false, canvasReady := false }
    (ps.posToIndex (7, 2) ≠ -1 →
      ((PheromoneSystem.depositToFood (defaultConfig jsPi) ps (7, 2) 3).toFoodGrid
          (ps.posToIndex (7, 2)).toNat
        = min (ps.toFoodGrid (ps.posToIndex (7, 2)).toNat + 3) (defaultConfig jsPi).maxIntensity ∧
       (∀ j, j ≠ (ps.posToIndex (7, 2)).toNat →
         (PheromoneSystem.depositToFood (defaultConfig jsPi) ps (7, 2) 3).toFoodGrid j
           = ps.toFoodGrid j) ∧
       (PheromoneSystem.depositToFood (defaultConfig jsPi) ps (7, 2) 3).toNestGrid
         = ps.toNestGrid) ∧
      ((PheromoneSystem.depositToNest (defaultConfig jsPi) ps (7, 2) 3).toNestGrid
          (ps.posToIndex (7, 2)).toNat
        = min (ps.toNestGrid (ps.posToIndex (7, 2)).toNat + 3) (defaultConfig jsPi).maxIntensity ∧
       (∀ j, j ≠ (ps.posToIndex (7, 2)).toNat →
         (PheromoneSystem.depositToNest (defaultConfig jsPi) ps (7, 2) 3).toNestGrid j
           = ps.toNestGrid j) ∧
       (PheromoneSystem.depositToNest (defaultConfig jsPi) ps (7, 2) 3).toFoodGrid
         = ps.toFoodGrid)) :=
  (C5_deposit_spec (defaultConfig jsPi) _ (7, 2) 3 (by norm_num)).2

/-- C10: sensing is a pure read — the method-style `sensePheromone` hands the
receiver back unchanged (the method body performs no writes), its three
components are exactly `getPheromoneAt` applied to the three projected sensor
points, and `getPheromoneAt` yields the stored cell value for in-bounds
positions and 0 for out-of-bounds positions without any state change. -/
theorem C10_sense_pure (prims : MathPrims) (ps : PheromoneSystem) (grid : ℕ → ℚ)
    (position : Vec) (angle sensorAngle sensorDistance : ℚ) :
    (ps.sensePheromoneM prims grid position angle sensorAngle sensorDistance).1 = ps ∧
    (ps.sensePheromoneM prims grid position angle sensorAngle sensorDistance).2 =
      { forward := ps.getPheromoneAt grid
          (position.1 + prims.cos angle * sensorDistance,
           position.2 + prims.sin angle * sensorDistance)
        left := ps.getPheromoneAt grid
          (position.1 + prims.cos (angle - sensorAngle) * sensorDistance,
           position.2 + prims.sin (angle - sensorAngle) * sensorDistance)
        right := ps.getPheromoneAt grid
          (position.1 + prims.cos (angle + sensorAngle) * sensorDistance,
           position.2 + prims.sin (angle + sensorAngle) * sensorDistance) } ∧
    (∀ p : Vec, ps.posToIndex p = -1 → ps.getPheromoneAt grid p = 0) ∧
    (∀ p : Vec, ps.posToIndex p ≠ -1 →
      ps.getPheromoneAt grid p = grid (ps.posToIndex p).toNat) := by
  refine ⟨rfl, rfl, ?_, ?_⟩
  · intro p hp
    unfold PheromoneSystem.getPheromoneAt
    simp [hp]
  · intro p hp
    unfold PheromoneSystem.getPheromoneAt
    simp [hp]

/-- A concrete field state used by witnesses. -/
def psEx : PheromoneSystem :=
  { resolution := 5, cols := 2, rows := 2, toFoodGrid := fun _ => 1,
    toNestGrid := fun _ => 2, dirtyRegions := ∅,
    visualizationNeedsUpdate := false, canvasReady := false }

/-- Concrete math primitives used by witnesses. -/
def primsEx : MathPrims :=
  { cos := fun _ => 1, sin := fun _ => 0, atan2 := fun _ _ => 0,
    sqrt := fun q => q, pi := jsPi }

/-- Witness for `C10_sense_pure` at a concrete field state and sensor
configuration. -/
theorem C10_witness :
    (psEx.sensePheromoneM primsEx psEx.toFoodGrid (2, 2) 0 1 3).1 = psEx ∧
    (∀ p : Vec, psEx.posToIndex p = -1 → psEx.getPheromoneAt psEx.toFoodGrid p = 0) :=
  ⟨(C10_sense_pure primsEx psEx psEx.toFoodGrid (2, 2) 0 1 3).1,
   (C10_sense_pure primsEx psEx psEx.toFoodGrid (2, 2) 0 1 3).2.2.1⟩

end Antland

namespace Antland

/-! ## Structural facts about the pre-computed neighbor table -/

/-- Injectivity of the `row * cols + col` cell encoding (integers). -/
theorem rowColEncode_inj {cols a a' b b' : ℤ} (ha : 0 ≤ a) (ha2 : a < cols)
    (ha' : 0 ≤ a') (ha2' : a' < cols) (h : b * cols + a = b' * cols + a') :
    a = a' ∧ b = b' := by
  have key : a - a' = (b' - b) * cols := by linear_combination h
  have hcols : 0 < cols := lt_of_le_of_lt ha ha2
  rcases lt_trichotomy b b' with hb | hb | hb
  · exfalso
    have h1 : (1 : ℤ) ≤ b' - b := by omega
    have h2 : 1 * cols ≤ (b' - b) * cols :=
      mul_le_mul_of_nonneg_right h1 (le_of_lt hcols)
    rw [one_mul] at h2
    have : a - a' < cols := by omega
    omega
  · subst hb
    constructor
    · omega
    · rfl
  · exfalso
    have key' : a' - a = (b - b') * cols := by linear_combination -h
    have h1 : (1 : ℤ) ≤ b - b' := by omega
    have h2 : 1 * cols ≤ (b - b') * cols :=
      mul_le_mul_of_nonneg_right h1 (le_of_lt hcols)
    rw [one_mul] at h2
    omega

/-- Unpack membership in `getNeighborIndices`. -/
theorem mem_getNeighborIndices {cols rows col row k : ℕ}
    (h : k ∈ getNeighborIndices cols rows col row) :
    ∃ xy : ℤ × ℤ, xy ∈ neighborOffsets ∧
      0 ≤ (col : ℤ) + xy.1 ∧ (col : ℤ) + xy.1 < (cols : ℤ) ∧
      0 ≤ (row : ℤ) + xy.2 ∧ (row : ℤ) + xy.2 < (rows : ℤ) ∧
      (k : ℤ) = ((row : ℤ) + xy.2) * (cols : ℤ) + ((col : ℤ) + xy.1) := by
  unfold getNeighborIndices at h
  rw [List.mem_filterMap] at h
  obtain ⟨xy, hmem, hf⟩ := h
  simp only at hf
  by_cases hc : 0 ≤ (col : ℤ) + xy.1 ∧ (col : ℤ) + xy.1 < (cols : ℤ) ∧
      0 ≤ (row : ℤ) + xy.2 ∧ (row : ℤ) + xy.2 < (rows : ℤ)
  · refine ⟨xy, hmem, hc.1, hc.2.1, hc.2.2.1, hc.2.2.2, ?_⟩
    rw [if_pos hc] at hf
    have hk := Option.some.inj hf
    have hnn : 0 ≤ ((row : ℤ) + xy.2) * (cols : ℤ) + ((col : ℤ) + xy.1) :=
      add_nonneg (mul_nonneg hc.2.2.1 (Int.ofNat_nonneg cols)) hc.1
    rw [← hk, Int.toNat_of_nonneg hnn]
  · rw [if_neg hc] at hf
    exact Option.noConfusion hf

/-- No offset in the unrolled loop is the skipped self-offset `(0, 0)`. -/
theorem neighborOffsets_ne_zero : ∀ xy ∈ neighborOffsets, xy ≠ ((0 : ℤ), (0 : ℤ)) := by
  decide

/-- Every pre-computed neighbor of an in-bounds cell is an in-bounds cell
index distinct from the cell itself. -/
theorem getNeighborIndices_mem_lt_ne {cols rows col row k : ℕ}
    (hcol : col < cols) (hrow : row < rows)
    (h : k ∈ getNeighborIndices cols rows col row) :
    k < cols * rows ∧ k ≠ row * cols + col := by
  obtain ⟨xy, hmem, h1, h2, h3, h4, h5⟩ := mem_getNeighborIndices h
  constructor
  · have hb : ((row : ℤ) + xy.2) * (cols : ℤ) ≤ ((rows : ℤ) - 1) * (cols : ℤ) :=
      mul_le_mul_of_nonneg_right (by omega) (Int.ofNat_nonneg cols)
    have : (k : ℤ) < (cols : ℤ) * (rows : ℤ) := by
      rw [h5]
      nlinarith [hb, h2, h1]
    exact_mod_cast this
  · intro hk
    have hkz : (k : ℤ) = (row : ℤ) * (cols : ℤ) + (col : ℤ) := by
      rw [hk]; push_cast; ring
    rw [hkz] at h5
    have hcolz : ((col : ℤ)) < (cols : ℤ) := by exact_mod_cast hcol
    have := rowColEncode_inj h1 h2 (Int.ofNat_nonneg col) hcolz h5.symm
    have hx : xy.1 = 0 := by omega
    have hy : xy.2 = 0 := by omega
    exact neighborOffsets_ne_zero xy hmem (Prod.ext hx hy)

/-- The pre-computed neighbor lists contain no duplicates. -/
theorem getNeighborIndices_nodup (cols rows col row : ℕ) :
    (getNeighborIndices cols rows col row).Nodup := by
  unfold getNeighborIndices
  apply List.Nodup.filterMap
  · intro a a' b hb hb'
    simp only [Option.mem_def] at hb hb'
    by_cases hc : 0 ≤ (col : ℤ) + a.1 ∧ (col : ℤ) + a.1 < (cols : ℤ) ∧
        0 ≤ (row : ℤ) + a.2 ∧ (row : ℤ) + a.2 < (rows : ℤ)
    · rw [if_pos hc] at hb
      by_cases hc' : 0 ≤ (col : ℤ) + a'.1 ∧ (col : ℤ) + a'.1 < (cols : ℤ) ∧
          0 ≤ (row : ℤ) + a'.2 ∧ (row : ℤ) + a'.2 < (rows : ℤ)
      · rw [if_pos hc'] at hb'
        have h1 := Option.some.inj hb
        have h2 := Option.some.inj hb'
        have hnn : 0 ≤ ((row : ℤ) + a.2) * (cols : ℤ) + ((col : ℤ) + a.1) :=
          add_nonneg (mul_nonneg hc.2.2.1 (Int.ofNat_nonneg cols)) hc.1
        have hnn' : 0 ≤ ((row : ℤ) + a'.2) * (cols : ℤ) + ((col : ℤ) + a'.1) :=
          add_nonneg (mul_nonneg hc'.2.2.1 (Int.ofNat_nonneg cols)) hc'.1
        have hz : ((row : ℤ) + a.2) * (cols : ℤ) + ((col : ℤ) + a.1) =
            ((row : ℤ) + a'.2) * (cols : ℤ) + ((col : ℤ) + a'.1) := by
          rw [← Int.toNat_of_nonneg hnn, ← Int.toNat_of_nonneg hnn', h1, h2]
        have hinj := rowColEncode_inj hc.1 hc.2.1 hc'.1 hc'.2.1 hz
        have hx : a.1 = a'.1 := by omega
        have hy : a.2 = a'.2 := by omega
        exact Prod.ext hx hy
      · rw [if_neg hc'] at hb'
        exact Option.noConfusion hb'
    · rw [if_neg hc] at hb
      exact Option.noConfusion hb
  · decide

end Antland

namespace Antland

/-- Facts about the neighbor table of an in-bounds cell: neighbors are
in-bounds, distinct from the cell, and pairwise distinct. -/
theorem neighborsAt_facts (ps : PheromoneSystem) (i : ℕ) (hi : i < ps.cols * ps.rows) :
    (∀ k ∈ ps.neighborsAt i, k < ps.cols * ps.rows ∧ k ≠ i) ∧ (ps.neighborsAt i).Nodup := by
  have hcols : 0 < ps.cols := by
    rcases Nat.eq_zero_or_pos ps.cols with h0 | h
    · rw [h0, Nat.zero_mul] at hi; omega
    · exact h
  have hcol : i % ps.cols < ps.cols := Nat.mod_lt _ hcols
  have hrow : i / ps.cols < ps.rows := by
    rw [Nat.div_lt_iff_lt_mul hcols]
    rw [Nat.mul_comm ps.rows ps.cols]
    exact hi
  have hdec : i / ps.cols * ps.cols + i % ps.cols = i := by
    rw [Nat.mul_comm (i / ps.cols) ps.cols]
    exact Nat.div_add_mod i ps.cols
  constructor
  · intro k hk
    have hfacts := getNeighborIndices_mem_lt_ne hcol hrow hk
    refine ⟨hfacts.1, ?_⟩
    rw [← hdec]
    exact hfacts.2
  · exact getNeighborIndices_nodup ps.cols ps.rows (i % ps.cols) (i / ps.cols)

/-! ## Closed form of the evaporation/diffusion pass -/

/-- A cell whose post-evaporation value is strictly above the fade threshold
participates in diffusion. -/
def cellActive (threshold rate : ℚ) (grid : ℕ → ℚ) (j : ℕ) : Prop :=
  threshold < evaporateValue threshold rate (grid j)

instance (threshold rate : ℚ) (grid : ℕ → ℚ) (j : ℕ) :
    Decidable (cellActive threshold rate grid j) :=
  inferInstanceAs (Decidable (_ < _))

/-- The per-neighbor diffusion amount of a source cell. -/
def diffusionShare (threshold rate d : ℚ) (neighbors : ℕ → List ℕ)
    (grid : ℕ → ℚ) (j : ℕ) : ℚ :=
  evaporateValue threshold rate (grid j) * d / ((neighbors j).length : ℚ)

/-- The total amount a cell loses to diffusion during the pass. -/
def outflowTotal (threshold rate d : ℚ) (neighbors : ℕ → List ℕ)
    (grid : ℕ → ℚ) (k : ℕ) : ℚ :=
  if cellActive threshold rate grid k then
    ((neighbors k).length : ℚ) * diffusionShare threshold rate d neighbors grid k
  else 0

/-- An active cell is above the threshold before evaporation. -/
theorem cellActive_above (threshold rate : ℚ) (grid : ℕ → ℚ) (j : ℕ)
    (h : cellActive threshold rate grid j) : threshold < grid j := by
  unfold cellActive evaporateValue at h
  by_cases hA : grid j > threshold
  · exact hA
  · rw [if_neg hA] at h
    exact absurd h hA

/-- A below-threshold cell evaporates to itself. -/
theorem evaporateValue_of_le (threshold rate v : ℚ) (h : ¬ v > threshold) :
    evaporateValue threshold rate v = v := by
  unfold evaporateValue
  rw [if_neg h]

/-- Pointwise effect of the inner diffusion loop: the source cell `i` loses
one share per neighbor and each (distinct) neighbor gains one share. -/
theorem foldl_depositNeighbor_apply (i : ℕ) (amt : ℚ) (l : List ℕ) (k : ℕ) :
    ∀ (next : ℕ → ℚ), i ∉ l → l.Nodup →
      l.foldl (depositNeighbor i amt) next k =
        if k = i then next i - l.length * amt
        else if k ∈ l then next k + amt else next k := by
  induction l with
  | nil =>
    intro next _ _
    by_cases hk : k = i
    · subst hk; simp
    · simp [hk]
  | cons j t ih =>
    intro next hi hnd
    have hij : i ≠ j := by
      intro h; exact hi (h ▸ List.mem_cons_self j t)
    have hit : i ∉ t := fun h => hi (List.mem_cons_of_mem _ h)
    obtain ⟨hjt, hndt⟩ := List.nodup_cons.mp hnd
    rw [List.foldl_cons, ih _ hit hndt]
    have hdi : depositNeighbor i amt next j i = next i - amt := by
      unfold depositNeighbor
      simp [Function.update_apply, hij]
    have hdjj : depositNeighbor i amt next j j = next j + amt := by
      unfold depositNeighbor
      simp [Function.update_apply, Ne.symm hij]
    by_cases hk : k = i
    · subst hk
      rw [if_pos rfl, if_pos rfl, hdi]
      have hlen : ((j :: t).length : ℚ) = (t.length : ℚ) + 1 := by
        push_cast [List.length_cons]; ring
      rw [hlen]; ring
    · rw [if_neg hk, if_neg hk]
      by_cases hkj : k = j
      · subst hkj
        rw [if_neg hjt, if_pos (List.mem_cons_self _ t), hdjj]
      · have hkn : depositNeighbor i amt next j k = next k := by
          unfold depositNeighbor
          simp [Function.update_apply, hk, hkj]
        rw [hkn]
        by_cases hkt : k ∈ t
        · rw [if_pos hkt, if_pos (List.mem_cons_of_mem j hkt)]
        · rw [if_neg hkt, if_neg (by simp [hkj, hkt])]

/-- Pointwise effect of one iteration of the per-channel update loop. -/
theorem channelCellStep_apply (threshold rate d : ℚ) (neighbors : ℕ → List ℕ)
    (grid next : ℕ → ℚ) (i k : ℕ)
    (hni : i ∉ neighbors i) (hndi : (neighbors i).Nodup) :
    channelCellStep threshold rate d neighbors grid next i k =
      if k = i then
        (if cellActive threshold rate grid i then
          evaporateValue threshold rate (grid i)
            - ((neighbors i).length : ℚ) * diffusionShare threshold rate d neighbors grid i
        else if threshold < grid i then evaporateValue threshold rate (grid i)
        else next i)
      else
        next k + (if cellActive threshold rate grid i ∧ k ∈ neighbors i then
          diffusionShare threshold rate d neighbors grid i else 0) := by
  simp only [channelCellStep, cellActive, diffusionShare, gt_iff_lt]
  by_cases hact : threshold < evaporateValue threshold rate (grid i)
  · have hA : threshold < grid i := cellActive_above threshold rate grid i hact
    rw [if_pos hA, if_pos hact, foldl_depositNeighbor_apply i _ (neighbors i) k _ hni hndi]
    by_cases hk : k = i
    · subst hk
      rw [if_pos rfl, if_pos rfl, if_pos hact, Function.update_same]
    · rw [if_neg hk, if_neg hk]
      by_cases hkm : k ∈ neighbors i
      · rw [if_pos hkm, if_pos ⟨hact, hkm⟩, Function.update_noteq hk]
      · rw [if_neg hkm, if_neg (fun h => hkm h.2), Function.update_noteq hk, add_zero]
  · rw [if_neg hact]
    by_cases hA : threshold < grid i
    · rw [if_pos hA]
      by_cases hk : k = i
      · subst hk
        rw [if_pos rfl, if_neg hact, if_pos hA, Function.update_same]
      · rw [if_neg hk, if_neg (fun h => hact h.1), Function.update_noteq hk, add_zero]
    · rw [if_neg hA]
      by_cases hk : k = i
      · subst hk
        rw [if_pos rfl, if_neg hact, if_neg hA]
      · rw [if_neg hk, if_neg (fun h => hact h.1), add_zero]

end Antland

namespace Antland

/-- Closed form of the per-channel evaporation/diffusion fold after the first
`m` iterations, evaluated at cell `k`.  A processed cell holds its evaporated
value minus its total outflow; inflow shares survive only when they arrive
from a later-indexed source or when the receiving cell is below the threshold
(otherwise the receiving cell's own evaporation write overwrote them); cells
not yet processed hold their original value plus every inflow received so
far. -/
theorem channelFold_closedForm (threshold rate d : ℚ) (neighbors : ℕ → List ℕ)
    (grid : ℕ → ℚ)
    (hnb : ∀ j, ∀ k ∈ neighbors j, k ≠ j)
    (hnd : ∀ j, (neighbors j).Nodup) :
    ∀ (m k : ℕ),
      (List.range m).foldl (channelCellStep threshold rate d neighbors grid) grid k =
        (if k < m then
            evaporateValue threshold rate (grid k) -
              outflowTotal threshold rate d neighbors grid k
          else grid k)
        + ∑ j ∈ Finset.range m,
            (if cellActive threshold rate grid j ∧ k ∈ neighbors j ∧
                (m ≤ k ∨ k < j ∨ ¬ threshold < grid k) then
              diffusionShare threshold rate d neighbors grid j
            else 0) := by
  intro m
  induction m with
  | zero =>
    intro k
    simp
  | succ m ih =>
    intro k
    rw [List.range_succ, List.foldl_append, List.foldl_cons, List.foldl_nil]
    rw [channelCellStep_apply threshold rate d neighbors grid _ m k
      (fun h => (hnb m m h) rfl) (hnd m)]
    rw [Finset.sum_range_succ]
    by_cases hk : k = m
    · subst hk
      have hnotlast : ¬(cellActive threshold rate grid k ∧ k ∈ neighbors k ∧
          (k + 1 ≤ k ∨ k < k ∨ ¬ threshold < grid k)) :=
        fun h => (hnb k k h.2.1) rfl
      rw [if_pos rfl, if_pos (by omega : k < k + 1), if_neg hnotlast, add_zero]
      by_cases hact : cellActive threshold rate grid k
      · have hA : threshold < grid k := cellActive_above threshold rate grid k hact
        rw [if_pos hact]
        have hz : ∑ j ∈ Finset.range k,
            (if cellActive threshold rate grid j ∧ k ∈ neighbors j ∧
                (k + 1 ≤ k ∨ k < j ∨ ¬ threshold < grid k) then
              diffusionShare threshold rate d neighbors grid j
            else 0) = 0 := by
          apply Finset.sum_eq_zero
          intro j hj
          have hjk : j < k := Finset.mem_range.mp hj
          rw [if_neg]
          rintro ⟨_, _, h3 | h3 | h3⟩
          · omega
          · omega
          · exact h3 hA
        rw [hz, add_zero]
        unfold outflowTotal
        rw [if_pos hact]
      · rw [if_neg hact]
        have hout : outflowTotal threshold rate d neighbors grid k = 0 := by
          unfold outflowTotal
          rw [if_neg hact]
        rw [hout, sub_zero]
        by_cases hA : threshold < grid k
        · rw [if_pos hA]
          have hz : ∑ j ∈ Finset.range k,
              (if cellActive threshold rate grid j ∧ k ∈ neighbors j ∧
                  (k + 1 ≤ k ∨ k < j ∨ ¬ threshold < grid k) then
                diffusionShare threshold rate d neighbors grid j
              else 0) = 0 := by
            apply Finset.sum_eq_zero
            intro j hj
            have hjk : j < k := Finset.mem_range.mp hj
            rw [if_neg]
            rintro ⟨_, _, h3 | h3 | h3⟩
            · omega
            · omega
            · exact h3 hA
          rw [hz, add_zero]
        · rw [if_neg hA, ih k, if_neg (lt_irrefl k)]
          rw [evaporateValue_of_le threshold rate (grid k) hA]
          congr 1
          apply Finset.sum_congr rfl
          intro j hj
          have hjk : j < k := Finset.mem_range.mp hj
          apply if_congr _ rfl rfl
          constructor
          · rintro ⟨h1, h2, _⟩
            exact ⟨h1, h2, Or.inr (Or.inr hA)⟩
          · rintro ⟨h1, h2, _⟩
            exact ⟨h1, h2, Or.inl (le_refl k)⟩
    · rw [if_neg hk, ih k]
      have hbase : (if k < m then
            evaporateValue threshold rate (grid k) -
              outflowTotal threshold rate d neighbors grid k
          else grid k) = (if k < m + 1 then
            evaporateValue threshold rate (grid k) -
              outflowTotal threshold rate d neighbors grid k
          else grid k) := by
        by_cases hklt : k < m
        · rw [if_pos hklt, if_pos (Nat.lt_succ_of_lt hklt)]
        · rw [if_neg hklt, if_neg (by omega)]
      have hsum : ∑ j ∈ Finset.range m,
          (if cellActive threshold rate grid j ∧ k ∈ neighbors j ∧
              (m ≤ k ∨ k < j ∨ ¬ threshold < grid k) then
            diffusionShare threshold rate d neighbors grid j
          else 0) = ∑ j ∈ Finset.range m,
          (if cellActive threshold rate grid j ∧ k ∈ neighbors j ∧
              (m + 1 ≤ k ∨ k < j ∨ ¬ threshold < grid k) then
            diffusionShare threshold rate d neighbors grid j
          else 0) := by
        apply Finset.sum_congr rfl
        intro j hj
        apply if_congr _ rfl rfl
        constructor
        · rintro ⟨h1, h2, h3 | h3 | h3⟩
          · exact ⟨h1, h2, Or.inl (by omega)⟩
          · exact ⟨h1, h2, Or.inr (Or.inl h3)⟩
          · exact ⟨h1, h2, Or.inr (Or.inr h3)⟩
        · rintro ⟨h1, h2, h3 | h3 | h3⟩
          · exact ⟨h1, h2, Or.inl (by omega)⟩
          · exact ⟨h1, h2, Or.inr (Or.inl h3)⟩
          · exact ⟨h1, h2, Or.inr (Or.inr h3)⟩
      have hlast : (if cellActive threshold rate grid m ∧ k ∈ neighbors m then
            diffusionShare threshold rate d neighbors grid m else 0)
          = (if cellActive threshold rate grid m ∧ k ∈ neighbors m ∧
              (m + 1 ≤ k ∨ k < m ∨ ¬ threshold < grid k) then
            diffusionShare threshold rate d neighbors grid m else 0) := by
        apply if_congr _ rfl rfl
        constructor
        · rintro ⟨h1, h2⟩
          refine ⟨h1, h2, ?_⟩
          rcases Nat.lt_or_ge k m with hlt | hge
          · exact Or.inr (Or.inl hlt)
          · exact Or.inl (by omega)
        · rintro ⟨h1, h2, _⟩
          exact ⟨h1, h2⟩
      rw [hbase, hsum, hlast]
      ring

end Antland

namespace Antland

/-- Folding a function that ignores the list elements is the identity. -/
theorem foldl_ignore (l : List ℕ) (b : ℕ → ℚ) :
    l.foldl (fun a _ => a) b = b := by
  induction l with
  | nil => rfl
  | cons x t ih => rw [List.foldl_cons]; exact ih

/-- The `toFoodNext` component of a buffer fold follows the projected
per-step function. -/
theorem foldl_buffers_toFoodNext (f : UpdateBuffers → ℕ → UpdateBuffers)
    (g : (ℕ → ℚ) → ℕ → ℕ → ℚ)
    (hfg : ∀ acc n, (f acc n).toFoodNext = g acc.toFoodNext n)
    (l : List ℕ) : ∀ b : UpdateBuffers,
      (l.foldl f b).toFoodNext = l.foldl g b.toFoodNext := by
  induction l with
  | nil => intro b; rfl
  | cons x t ih =>
    intro b
    rw [List.foldl_cons, List.foldl_cons, ih, hfg]

/-- The `toNestNext` component of a buffer fold follows the projected
per-step function. -/
theorem foldl_buffers_toNestNext (f : UpdateBuffers → ℕ → UpdateBuffers)
    (g : (ℕ → ℚ) → ℕ → ℕ → ℚ)
    (hfg : ∀ acc n, (f acc n).toNestNext = g acc.toNestNext n)
    (l : List ℕ) : ∀ b : UpdateBuffers,
      (l.foldl f b).toNestNext = l.foldl g b.toNestNext := by
  induction l with
  | nil => intro b; rfl
  | cons x t ih =>
    intro b
    rw [List.foldl_cons, List.foldl_cons, ih, hfg]

/-- The food channel of the combined update iteration is exactly the
single-channel iteration on the food buffer. -/
theorem updateCellStep_toFoodNext (cfg : Config) (neighbors : ℕ → List ℕ)
    (gF gN : ℕ → ℚ) (b : UpdateBuffers) (i : ℕ) :
    (updateCellStep cfg neighbors gF gN b i).toFoodNext =
      channelCellStep cfg.pheromoneFadeThreshold cfg.toFood.evaporationRate
        cfg.toFood.diffusionRate neighbors gF b.toFoodNext i := by
  simp only [updateCellStep, channelCellStep]
  rw [apply_ite UpdateBuffers.toFoodNext]
  rw [foldl_buffers_toFoodNext _
    (fun acc n =>
      if evaporateValue cfg.pheromoneFadeThreshold cfg.toFood.evaporationRate (gF i) >
          cfg.pheromoneFadeThreshold then
        depositNeighbor i
          (evaporateValue cfg.pheromoneFadeThreshold cfg.toFood.evaporationRate (gF i) *
            cfg.toFood.diffusionRate / ((neighbors i).length : ℚ)) acc n
      else acc)
    (fun acc n => rfl) (neighbors i)]
  simp only [apply_ite UpdateBuffers.toFoodNext]
  by_cases hfv : evaporateValue cfg.pheromoneFadeThreshold cfg.toFood.evaporationRate (gF i) >
      cfg.pheromoneFadeThreshold
  · rw [if_pos (Or.inl hfv), if_pos hfv]
    have hfun : (fun (acc : ℕ → ℚ) n =>
        if evaporateValue cfg.pheromoneFadeThreshold cfg.toFood.evaporationRate (gF i) >
            cfg.pheromoneFadeThreshold then
          depositNeighbor i
            (evaporateValue cfg.pheromoneFadeThreshold cfg.toFood.evaporationRate (gF i) *
              cfg.toFood.diffusionRate / ((neighbors i).length : ℚ)) acc n
        else acc) = depositNeighbor i
          (evaporateValue cfg.pheromoneFadeThreshold cfg.toFood.evaporationRate (gF i) *
            cfg.toFood.diffusionRate / ((neighbors i).length : ℚ)) := by
      funext acc n
      rw [if_pos hfv]
    rw [hfun]
    by_cases hN : gN i > cfg.pheromoneFadeThreshold
    · rw [if_pos hN]
    · rw [if_neg hN]
  · rw [if_neg hfv]
    have hfun : (fun (acc : ℕ → ℚ) n =>
        if evaporateValue cfg.pheromoneFadeThreshold cfg.toFood.evaporationRate (gF i) >
            cfg.pheromoneFadeThreshold then
          depositNeighbor i
            (evaporateValue cfg.pheromoneFadeThreshold cfg.toFood.evaporationRate (gF i) *
              cfg.toFood.diffusionRate / ((neighbors i).length : ℚ)) acc n
        else acc) = fun acc _ => acc := by
      funext acc n
      rw [if_neg hfv]
    by_cases hnv : evaporateValue cfg.pheromoneFadeThreshold cfg.toNest.evaporationRate (gN i) >
        cfg.pheromoneFadeThreshold
    · rw [if_pos (Or.inr hnv), hfun, foldl_ignore]
      by_cases hN : gN i > cfg.pheromoneFadeThreshold
      · rw [if_pos hN]
      · rw [if_neg hN]
    · rw [if_neg (by rintro (h | h); exacts [hfv h, hnv h])]
      by_cases hN : gN i > cfg.pheromoneFadeThreshold
      · rw [if_pos hN]
      · rw [if_neg hN]

end Antland

namespace Antland

/-- The nest channel of the combined update iteration is exactly the
single-channel iteration on the nest buffer. -/
theorem updateCellStep_toNestNext (cfg : Config) (neighbors : ℕ → List ℕ)
    (gF gN : ℕ → ℚ) (b : UpdateBuffers) (i : ℕ) :
    (updateCellStep cfg neighbors gF gN b i).toNestNext =
      channelCellStep cfg.pheromoneFadeThreshold cfg.toNest.evaporationRate
        cfg.toNest.diffusionRate neighbors gN b.toNestNext i := by
  simp only [updateCellStep, channelCellStep]
  rw [apply_ite UpdateBuffers.toNestNext]
  rw [foldl_buffers_toNestNext _
    (fun acc n =>
      if evaporateValue cfg.pheromoneFadeThreshold cfg.toNest.evaporationRate (gN i) >
          cfg.pheromoneFadeThreshold then
        depositNeighbor i
          (evaporateValue cfg.pheromoneFadeThreshold cfg.toNest.evaporationRate (gN i) *
            cfg.toNest.diffusionRate / ((neighbors i).length : ℚ)) acc n
      else acc)
    (fun acc n => rfl) (neighbors i)]
  simp only [apply_ite UpdateBuffers.toNestNext]
  by_cases hnv : evaporateValue cfg.pheromoneFadeThreshold cfg.toNest.evaporationRate (gN i) >
      cfg.pheromoneFadeThreshold
  · rw [if_pos (Or.inr hnv)]
    have hfun : (fun (acc : ℕ → ℚ) n =>
        if evaporateValue cfg.pheromoneFadeThreshold cfg.toNest.evaporationRate (gN i) >
            cfg.pheromoneFadeThreshold then
          depositNeighbor i
            (evaporateValue cfg.pheromoneFadeThreshold cfg.toNest.evaporationRate (gN i) *
              cfg.toNest.diffusionRate / ((neighbors i).length : ℚ)) acc n
        else acc) = depositNeighbor i
          (evaporateValue cfg.pheromoneFadeThreshold cfg.toNest.evaporationRate (gN i) *
            cfg.toNest.diffusionRate / ((neighbors i).length : ℚ)) := by
      funext acc n
      rw [if_pos hnv]
    rw [hfun, if_pos hnv]
    by_cases hF : gF i > cfg.pheromoneFadeThreshold
    · rw [if_pos hF]
    · rw [if_neg hF]
  · have hfun : (fun (acc : ℕ → ℚ) n =>
        if evaporateValue cfg.pheromoneFadeThreshold cfg.toNest.evaporationRate (gN i) >
            cfg.pheromoneFadeThreshold then
          depositNeighbor i
            (evaporateValue cfg.pheromoneFadeThreshold cfg.toNest.evaporationRate (gN i) *
              cfg.toNest.diffusionRate / ((neighbors i).length : ℚ)) acc n
        else acc) = fun acc _ => acc := by
      funext acc n
      rw [if_neg hnv]
    rw [if_neg hnv]
    by_cases hfv : evaporateValue cfg.pheromoneFadeThreshold cfg.toFood.evaporationRate (gF i) >
        cfg.pheromoneFadeThreshold
    · rw [if_pos (Or.inl hfv), hfun, foldl_ignore]
      by_cases hF : gF i > cfg.pheromoneFadeThreshold
      · rw [if_pos hF]
      · rw [if_neg hF]
    · rw [if_neg (by rintro (h | h); exacts [hfv h, hnv h])]
      by_cases hF : gF i > cfg.pheromoneFadeThreshold
      · rw [if_pos hF]
      · rw [if_neg hF]

/-- An unpaused `update()` transforms each channel's grid by the
single-channel evaporation/diffusion fold (and leaves the grid dimensions
untouched). -/
theorem update_grids (cfg : Config) (ps : PheromoneSystem) (hp : cfg.paused = false) :
    (PheromoneSystem.update cfg ps).toFoodGrid =
      channelUpdate cfg.pheromoneFadeThreshold cfg.toFood.evaporationRate
        cfg.toFood.diffusionRate ps.neighborsAt (ps.cols * ps.rows) ps.toFoodGrid ∧
    (PheromoneSystem.update cfg ps).toNestGrid =
      channelUpdate cfg.pheromoneFadeThreshold cfg.toNest.evaporationRate
        cfg.toNest.diffusionRate ps.neighborsAt (ps.cols * ps.rows) ps.toNestGrid ∧
    (PheromoneSystem.update cfg ps).cols = ps.cols ∧
    (PheromoneSystem.update cfg ps).rows = ps.rows := by
  unfold PheromoneSystem.update channelUpdate PheromoneSystem.updateAllVisualizations
  rw [hp]
  simp only [Bool.false_eq_true, if_false]
  refine ⟨?_, ?_, ?_, ?_⟩
  · rw [apply_ite PheromoneSystem.toFoodGrid]
    simp only [apply_ite PheromoneSystem.toFoodGrid]
    rw [foldl_buffers_toFoodNext _ _
      (updateCellStep_toFoodNext cfg ps.neighborsAt ps.toFoodGrid ps.toNestGrid)
      (List.range (ps.cols * ps.rows))]
    by_cases hviz : ps.visualizationNeedsUpdate = true ∧ cfg.showPheromones = true
    · rw [if_pos hviz]
      by_cases hc : ps.canvasReady = true
      · rw [if_pos hc]
      · rw [if_neg hc]
    · rw [if_neg hviz]
  · rw [apply_ite PheromoneSystem.toNestGrid]
    simp only [apply_ite PheromoneSystem.toNestGrid]
    rw [foldl_buffers_toNestNext _ _
      (updateCellStep_toNestNext cfg ps.neighborsAt ps.toFoodGrid ps.toNestGrid)
      (List.range (ps.cols * ps.rows))]
    by_cases hviz : ps.visualizationNeedsUpdate = true ∧ cfg.showPheromones = true
    · rw [if_pos hviz]
      by_cases hc : ps.canvasReady = true
      · rw [if_pos hc]
      · rw [if_neg hc]
    · rw [if_neg hviz]
  · rw [apply_ite PheromoneSystem.cols]
    simp only [apply_ite PheromoneSystem.cols]
    by_cases hviz : ps.visualizationNeedsUpdate = true ∧ cfg.showPheromones = true
    · rw [if_pos hviz]
      by_cases hc : ps.canvasReady = true
      · rw [if_pos hc]
      · rw [if_neg hc]
    · rw [if_neg hviz]
  · rw [apply_ite PheromoneSystem.rows]
    simp only [apply_ite PheromoneSystem.rows]
    by_cases hviz : ps.visualizationNeedsUpdate = true ∧ cfg.showPheromones = true
    · rw [if_pos hviz]
      by_cases hc : ps.canvasReady = true
      · rw [if_pos hc]
      · rw [if_neg hc]
    · rw [if_neg hviz]

end Antland

namespace Antland

/-- With at least one column, no cell is its own pre-computed neighbor
(for any index, in-bounds or not). -/
theorem neighborsAt_ne (ps : PheromoneSystem) (hcols : 0 < ps.cols) (j : ℕ) :
    ∀ k ∈ ps.neighborsAt j, k ≠ j := by
  intro k hk hkj
  subst hkj
  obtain ⟨xy, hmem, h1, h2, h3, h4, h5⟩ := mem_getNeighborIndices hk
  have hdecn : k / ps.cols * ps.cols + k % ps.cols = k := by
    rw [Nat.mul_comm (k / ps.cols) ps.cols]
    exact Nat.div_add_mod k ps.cols
  have hdec : (k : ℤ) = ((k / ps.cols : ℕ) : ℤ) * (ps.cols : ℤ) + ((k % ps.cols : ℕ) : ℤ) := by
    exact_mod_cast hdecn.symm
  rw [hdec] at h5
  have hmod : ((k % ps.cols : ℕ) : ℤ) < (ps.cols : ℤ) := by
    exact_mod_cast Nat.mod_lt _ hcols
  have hinj := rowColEncode_inj (Int.ofNat_nonneg (k % ps.cols)) hmod h1 h2 h5
  have hx : xy.1 = 0 := by omega
  have hy : xy.2 = 0 := by omega
  exact neighborOffsets_ne_zero xy hmem (Prod.ext hx hy)

/-- The pre-computed neighbor lists never contain duplicates. -/
theorem neighborsAt_nodup (ps : PheromoneSystem) (j : ℕ) : (ps.neighborsAt j).Nodup :=
  getNeighborIndices_nodup ps.cols ps.rows (j % ps.cols) (j / ps.cols)

/-- With evaporation rate 1, evaporation leaves every cell value unchanged. -/
theorem evaporateValue_one (threshold v : ℚ) : evaporateValue threshold 1 v = v := by
  unfold evaporateValue
  by_cases h : v > threshold
  · rw [if_pos h, mul_one, if_neg (lt_asymm h)]
  · rw [if_neg h]

/-- Evaporation preserves nonnegativity. -/
theorem evaporateValue_nonneg (threshold rate v : ℚ) (hr : 0 ≤ rate) (hv : 0 ≤ v) :
    0 ≤ evaporateValue threshold rate v := by
  unfold evaporateValue
  by_cases h : v > threshold
  · rw [if_pos h]
    by_cases h2 : v * rate < threshold
    · rw [if_pos h2]
    · rw [if_neg h2]
      exact mul_nonneg hv hr
  · rw [if_neg h]
    exact hv

/-- One pass of the single-channel evaporation/diffusion fold keeps every
cell nonnegative, for any diffusion rate in `[0, 1]` and nonnegative
evaporation rate. -/
theorem channelUpdate_nonneg (threshold rate d : ℚ) (neighbors : ℕ → List ℕ)
    (n : ℕ) (grid : ℕ → ℚ)
    (hnb : ∀ j, ∀ k ∈ neighbors j, k ≠ j)
    (hnd : ∀ j, (neighbors j).Nodup)
    (hr : 0 ≤ rate) (hd0 : 0 ≤ d) (hd1 : d ≤ 1)
    (hg : ∀ i, 0 ≤ grid i) :
    ∀ k, 0 ≤ channelUpdate threshold rate d neighbors n grid k := by
  intro k
  unfold channelUpdate
  rw [channelFold_closedForm threshold rate d neighbors grid hnb hnd n k]
  have hsum : 0 ≤ ∑ j ∈ Finset.range n,
      (if cellActive threshold rate grid j ∧ k ∈ neighbors j ∧
          (n ≤ k ∨ k < j ∨ ¬ threshold < grid k) then
        diffusionShare threshold rate d neighbors grid j
      else 0) := by
    apply Finset.sum_nonneg
    intro j _
    by_cases hc : cellActive threshold rate grid j ∧ k ∈ neighbors j ∧
        (n ≤ k ∨ k < j ∨ ¬ threshold < grid k)
    · rw [if_pos hc]
      unfold diffusionShare
      apply div_nonneg
      · exact mul_nonneg (evaporateValue_nonneg threshold rate (grid j) hr (hg j)) hd0
      · exact Nat.cast_nonneg _
    · rw [if_neg hc]
  have hbase : 0 ≤ (if k < n then
      evaporateValue threshold rate (grid k) -
        outflowTotal threshold rate d neighbors grid k
    else grid k) := by
    by_cases hk : k < n
    · rw [if_pos hk]
      have hev := evaporateValue_nonneg threshold rate (grid k) hr (hg k)
      have hout : outflowTotal threshold rate d neighbors grid k ≤
          evaporateValue threshold rate (grid k) := by
        unfold outflowTotal diffusionShare
        by_cases hact : cellActive threshold rate grid k
        · rw [if_pos hact]
          rcases Nat.eq_zero_or_pos (neighbors k).length with hl | hl
          · rw [hl]
            push_cast
            rw [zero_mul]
            exact hev
          · have hlq : ((neighbors k).length : ℚ) ≠ 0 := by
              positivity
            rw [mul_comm ((neighbors k).length : ℚ)
                (evaporateValue threshold rate (grid k) * d / ((neighbors k).length : ℚ)),
              div_mul_cancel₀ _ hlq]
            calc evaporateValue threshold rate (grid k) * d ≤
                evaporateValue threshold rate (grid k) * 1 :=
                  mul_le_mul_of_nonneg_left hd1 hev
              _ = evaporateValue threshold rate (grid k) := mul_one _
        · rw [if_neg hact]
          exact hev
      linarith
    · rw [if_neg hk]
      exact hg k
  linarith

end Antland

namespace Antland

/-- A pointwise property preserved by every iteration of a fold over grids is
preserved by the fold. -/
theorem foldl_pointwise {β : Type} (P : ℚ → Prop)
    (f : (ℕ → ℚ) → β → (ℕ → ℚ))
    (hf : ∀ acc b, (∀ i, P (acc i)) → ∀ i, P (f acc b i)) :
    ∀ (l : List β) (acc : ℕ → ℚ), (∀ i, P (acc i)) → ∀ i, P (l.foldl f acc i) := by
  intro l
  induction l with
  | nil => intro acc h i; exact h i
  | cons x t ih =>
    intro acc h i
    rw [List.foldl_cons]
    exact ih _ (hf acc x h) i

/-- Every cell of a resized grid is either `0` or a copied old cell, so any
pointwise property of `0` and the old cells survives the copy. -/
theorem resizeCopyGrid_pointwise (oldCols newCols r c : ℕ) (oldGrid : ℕ → ℚ)
    (P : ℚ → Prop) (hP0 : P 0) (hold : ∀ i, P (oldGrid i)) :
    ∀ i, P (resizeCopyGrid oldCols newCols r c oldGrid i) := by
  unfold resizeCopyGrid
  apply foldl_pointwise P _ _ (List.range r) _ (fun i => hP0)
  intro acc row hacc
  apply foldl_pointwise P _ _ (List.range c) _ hacc
  intro acc2 col hacc2 i
  rw [Function.update_apply]
  by_cases hi : i = row * newCols + col
  · rw [if_pos hi]
    exact hold _
  · rw [if_neg hi]
    exact hacc2 i

end Antland

namespace Antland

/-- C2 (amended): starting from a field whose cells all lie in
`[0, maxIntensity]`, `deposit` (either channel, any nonnegative amount),
`clear` and `resize` keep every cell of both channels in
`[0, maxIntensity]`; the evaporation/diffusion `update` keeps every cell
nonnegative (its upper bound fails on the code — see the counterexample:
diffusion inflow is not clamped). -/
theorem C2_cell_bounds (cfg : Config) (ps : PheromoneSystem)
    (hmax : 0 ≤ cfg.maxIntensity)
    (hbF : ∀ i, 0 ≤ ps.toFoodGrid i ∧ ps.toFoodGrid i ≤ cfg.maxIntensity)
    (hbN : ∀ i, 0 ≤ ps.toNestGrid i ∧ ps.toNestGrid i ≤ cfg.maxIntensity) :
    (∀ position amount, 0 ≤ amount →
      (∀ i, 0 ≤ (PheromoneSystem.depositToFood cfg ps position amount).toFoodGrid i ∧
        (PheromoneSystem.depositToFood cfg ps position amount).toFoodGrid i ≤ cfg.maxIntensity ∧
        0 ≤ (PheromoneSystem.depositToFood cfg ps position amount).toNestGrid i ∧
        (PheromoneSystem.depositToFood cfg ps position amount).toNestGrid i ≤ cfg.maxIntensity) ∧
      (∀ i, 0 ≤ (PheromoneSystem.depositToNest cfg ps position amount).toNestGrid i ∧
        (PheromoneSystem.depositToNest cfg ps position amount).toNestGrid i ≤ cfg.maxIntensity ∧
        0 ≤ (PheromoneSystem.depositToNest cfg ps position amount).toFoodGrid i ∧
        (PheromoneSystem.depositToNest cfg ps position amount).toFoodGrid i ≤ cfg.maxIntensity)) ∧
    (cfg.paused = false →
      0 ≤ cfg.toFood.evaporationRate → 0 ≤ cfg.toFood.diffusionRate →
      cfg.toFood.diffusionRate ≤ 1 →
      0 ≤ cfg.toNest.evaporationRate → 0 ≤ cfg.toNest.diffusionRate →
      cfg.toNest.diffusionRate ≤ 1 →
      ∀ i, 0 ≤ (PheromoneSystem.update cfg ps).toFoodGrid i ∧
        0 ≤ (PheromoneSystem.update cfg ps).toNestGrid i) ∧
    (∀ i, 0 ≤ ps.clear.toFoodGrid i ∧ ps.clear.toFoodGrid i ≤ cfg.maxIntensity ∧
      0 ≤ ps.clear.toNestGrid i ∧ ps.clear.toNestGrid i ≤ cfg.maxIntensity) ∧
    (∀ width height i,
      0 ≤ (ps.resize width height).toFoodGrid i ∧
      (ps.resize width height).toFoodGrid i ≤ cfg.maxIntensity ∧
      0 ≤ (ps.resize width height).toNestGrid i ∧
      (ps.resize width height).toNestGrid i ≤ cfg.maxIntensity) := by
  refine ⟨?_, ?_, ?_, ?_⟩
  · intro position amount hamt
    constructor
    · intro i
      unfold PheromoneSystem.depositToFood
      by_cases hidx : ps.posToIndex position ≠ -1
      · rw [if_pos hidx]
        dsimp only
        refine ⟨?_, ?_, (hbN i).1, (hbN i).2⟩
        · rw [Function.update_apply]
          by_cases hi : i = (ps.posToIndex position).toNat
          · rw [if_pos hi]
            exact le_min (add_nonneg (hbF _).1 hamt) hmax
          · rw [if_neg hi]
            exact (hbF i).1
        · rw [Function.update_apply]
          by_cases hi : i = (ps.posToIndex position).toNat
          · rw [if_pos hi]
            exact min_le_right _ _
          · rw [if_neg hi]
            exact (hbF i).2
      · rw [if_neg hidx]
        exact ⟨(hbF i).1, (hbF i).2, (hbN i).1, (hbN i).2⟩
    · intro i
      unfold PheromoneSystem.depositToNest
      by_cases hidx : ps.posToIndex position ≠ -1
      · rw [if_pos hidx]
        dsimp only
        refine ⟨?_, ?_, (hbF i).1, (hbF i).2⟩
        · rw [Function.update_apply]
          by_cases hi : i = (ps.posToIndex position).toNat
          · rw [if_pos hi]
            exact le_min (add_nonneg (hbN _).1 hamt) hmax
          · rw [if_neg hi]
            exact (hbN i).1
        · rw [Function.update_apply]
          by_cases hi : i = (ps.posToIndex position).toNat
          · rw [if_pos hi]
            exact min_le_right _ _
          · rw [if_neg hi]
            exact (hbN i).2
      · rw [if_neg hidx]
        exact ⟨(hbN i).1, (hbN i).2, (hbF i).1, (hbF i).2⟩
  · intro hp heF hdF0 hdF1 heN hdN0 hdN1 i
    rcases Nat.eq_zero_or_pos ps.cols with hc0 | hcols
    · have hN : ps.cols * ps.rows = 0 := by rw [hc0, Nat.zero_mul]
      rw [(update_grids cfg ps hp).1, (update_grids cfg ps hp).2.1]
      unfold channelUpdate
      rw [hN]
      exact ⟨(hbF i).1, (hbN i).1⟩
    · have hnb := fun j => neighborsAt_ne ps hcols j
      have hnd := fun j => neighborsAt_nodup ps j
      rw [(update_grids cfg ps hp).1, (update_grids cfg ps hp).2.1]
      exact ⟨channelUpdate_nonneg _ _ _ _ _ _ hnb hnd heF hdF0 hdF1
          (fun j => (hbF j).1) i,
        channelUpdate_nonneg _ _ _ _ _ _ hnb hnd heN hdN0 hdN1
          (fun j => (hbN j).1) i⟩
  · intro i
    unfold PheromoneSystem.clear PheromoneSystem.updateAllVisualizations
    by_cases hc : ps.canvasReady = true
    · rw [if_pos hc]
      exact ⟨le_refl 0, hmax, le_refl 0, hmax⟩
    · rw [if_neg hc]
      exact ⟨le_refl 0, hmax, le_refl 0, hmax⟩
  · intro width height i
    unfold PheromoneSystem.resize
    have hF := resizeCopyGrid_pointwise ps.cols ⌈width / ps.resolution⌉.toNat
      (min ps.rows ⌈height / ps.resolution⌉.toNat)
      (min ps.cols ⌈width / ps.resolution⌉.toNat) ps.toFoodGrid
      (fun v => 0 ≤ v ∧ v ≤ cfg.maxIntensity) ⟨le_refl 0, hmax⟩ hbF
    have hN := resizeCopyGrid_pointwise ps.cols ⌈width / ps.resolution⌉.toNat
      (min ps.rows ⌈height / ps.resolution⌉.toNat)
      (min ps.cols ⌈width / ps.resolution⌉.toNat) ps.toNestGrid
      (fun v => 0 ≤ v ∧ v ≤ cfg.maxIntensity) ⟨le_refl 0, hmax⟩ hbN
    by_cases hc : ps.canvasReady = true
    · rw [if_pos hc]
      exact ⟨(hF i).1, (hF i).2, (hN i).1, (hN i).2⟩
    · rw [if_neg hc]
      exact ⟨(hF i).1, (hF i).2, (hN i).1, (hN i).2⟩

end Antland

namespace Antland

/-- A 3×3 field with both channels saturated at `maxIntensity = 500`. -/
def psNine : PheromoneSystem :=
  { resolution := 5, cols := 3, rows := 3, toFoodGrid := fun _ => 500,
    toNestGrid := fun _ => 500, dirtyRegions := ∅,
    visualizationNeedsUpdate := false, canvasReady := false }

/-- C2, counterexample: starting from a field whose cells all lie in
`[0, maxIntensity]`, one evaporation/diffusion pass pushes the center cell of
a 3×3 grid *above* `maxIntensity` (the pass never clamps diffusion inflow),
so the claimed invariant fails for the update operation. -/
theorem C2_counterexample :
    (∀ i, 0 ≤ psNine.toFoodGrid i ∧
      psNine.toFoodGrid i ≤ (defaultConfig jsPi).maxIntensity) ∧
    (∀ i, 0 ≤ psNine.toNestGrid i ∧
      psNine.toNestGrid i ≤ (defaultConfig jsPi).maxIntensity) ∧
    (defaultConfig jsPi).maxIntensity <
      (PheromoneSystem.update (defaultConfig jsPi) psNine).toFoodGrid 4 := by
  refine ⟨fun i => ⟨by norm_num [psNine], by norm_num [psNine, defaultConfig]⟩,
    fun i => ⟨by norm_num [psNine], by norm_num [psNine, defaultConfig]⟩, ?_⟩
  have hp : (defaultConfig jsPi).paused = false := rfl
  rw [(update_grids (defaultConfig jsPi) psNine hp).1]
  unfold channelUpdate
  have hcols : 0 < psNine.cols := by norm_num [psNine]
  rw [channelFold_closedForm _ _ _ _ _
    (fun j => neighborsAt_ne psNine hcols j)
    (fun j => neighborsAt_nodup psNine j) (psNine.cols * psNine.rows) 4]
  norm_num [psNine, defaultConfig, outflowTotal, cellActive, diffusionShare,
    evaporateValue, Finset.sum_range_succ, PheromoneSystem.neighborsAt,
    getNeighborIndices, neighborOffsets, List.filterMap]
  simp
  norm_num

/-- Witness for `C2_cell_bounds`: nonnegativity of the updated field at the
default configuration and a concrete in-range field. -/
theorem C2_witness :
    0 ≤ (PheromoneSystem.update (defaultConfig jsPi) psEx).toFoodGrid 0 ∧
    0 ≤ (PheromoneSystem.update (defaultConfig jsPi) psEx).toNestGrid 0 :=
  (C2_cell_bounds (defaultConfig jsPi) psEx (by norm_num [defaultConfig])
    (fun i => by norm_num [psEx, defaultConfig])
    (fun i => by norm_num [psEx, defaultConfig])).2.1 rfl
    (by norm_num [defaultConfig]) (by norm_num [defaultConfig])
    (by norm_num [defaultConfig]) (by norm_num [defaultConfig])
    (by norm_num [defaultConfig]) (by norm_num [defaultConfig]) 0

end Antland

namespace Antland

/-- C3 (amended): with evaporation rate 1 and no deposits, one
evaporation/diffusion pass conserves the total of the "to food" channel
*provided* no above-threshold cell is a Moore neighbor of a lower-indexed
above-threshold cell.  (Without that proviso the pass loses mass: the
evaporation branch's buffer write `toFoodNext[i] = toFoodValue` overwrites
diffusion inflow the cell already received from lower-indexed neighbors —
see the counterexample.)  Each active source still loses exactly
`value * diffusionRate`, distributed as `value * diffusionRate /
neighborCount` per actual in-bounds Moore neighbor. -/
theorem C3_diffusion_conservation (cfg : Config) (ps : PheromoneSystem)
    (hp : cfg.paused = false)
    (he : cfg.toFood.evaporationRate = 1)
    (hadj : ∀ j k, j < ps.cols * ps.rows → k ∈ ps.neighborsAt j → j < k →
      cfg.pheromoneFadeThreshold < ps.toFoodGrid j →
      ¬ cfg.pheromoneFadeThreshold < ps.toFoodGrid k) :
    ∑ k ∈ Finset.range (ps.cols * ps.rows),
        (PheromoneSystem.update cfg ps).toFoodGrid k =
      ∑ k ∈ Finset.range (ps.cols * ps.rows), ps.toFoodGrid k := by
  rcases Nat.eq_zero_or_pos ps.cols with hc0 | hcols
  · have hN0 : ps.cols * ps.rows = 0 := by rw [hc0, Nat.zero_mul]
    rw [hN0]
    simp
  · have hnb := fun j => neighborsAt_ne ps hcols j
    have hnd := fun j => neighborsAt_nodup ps j
    have hact_iff : ∀ j, cellActive cfg.pheromoneFadeThreshold 1 ps.toFoodGrid j ↔
        cfg.pheromoneFadeThreshold < ps.toFoodGrid j := by
      intro j
      unfold cellActive
      rw [evaporateValue_one]
    have hupd : ∀ k ∈ Finset.range (ps.cols * ps.rows),
        (PheromoneSystem.update cfg ps).toFoodGrid k =
          (evaporateValue cfg.pheromoneFadeThreshold 1 (ps.toFoodGrid k) -
            outflowTotal cfg.pheromoneFadeThreshold 1 cfg.toFood.diffusionRate
              ps.neighborsAt ps.toFoodGrid k) +
          ∑ j ∈ Finset.range (ps.cols * ps.rows),
            (if cellActive cfg.pheromoneFadeThreshold 1 ps.toFoodGrid j ∧
                k ∈ ps.neighborsAt j then
              diffusionShare cfg.pheromoneFadeThreshold 1 cfg.toFood.diffusionRate
                ps.neighborsAt ps.toFoodGrid j
            else 0) := by
      intro k hk
      have hklt : k < ps.cols * ps.rows := Finset.mem_range.mp hk
      rw [(update_grids cfg ps hp).1]
      unfold channelUpdate
      rw [he]
      rw [channelFold_closedForm cfg.pheromoneFadeThreshold 1 cfg.toFood.diffusionRate
        ps.neighborsAt ps.toFoodGrid hnb hnd (ps.cols * ps.rows) k]
      rw [if_pos hklt]
      congr 1
      apply Finset.sum_congr rfl
      intro j hj
      apply if_congr _ rfl rfl
      constructor
      · rintro ⟨h1, h2, _⟩
        exact ⟨h1, h2⟩
      · rintro ⟨h1, h2⟩
        refine ⟨h1, h2, ?_⟩
        have hkj : k ≠ j := hnb j k h2
        rcases Nat.lt_or_ge k j with hlt | hge
        · exact Or.inr (Or.inl hlt)
        · have hjk : j < k := by omega
          have hgj : cfg.pheromoneFadeThreshold < ps.toFoodGrid j := (hact_iff j).mp h1
          exact Or.inr (Or.inr (hadj j k (Finset.mem_range.mp hj) h2 hjk hgj))
    rw [Finset.sum_congr rfl hupd]
    rw [Finset.sum_add_distrib]
    rw [Finset.sum_sub_distrib]
    rw [Finset.sum_comm]
    have hswap : ∀ j ∈ Finset.range (ps.cols * ps.rows),
        (∑ k ∈ Finset.range (ps.cols * ps.rows),
          (if cellActive cfg.pheromoneFadeThreshold 1 ps.toFoodGrid j ∧
              k ∈ ps.neighborsAt j then
            diffusionShare cfg.pheromoneFadeThreshold 1 cfg.toFood.diffusionRate
              ps.neighborsAt ps.toFoodGrid j
          else 0)) =
        outflowTotal cfg.pheromoneFadeThreshold 1 cfg.toFood.diffusionRate
          ps.neighborsAt ps.toFoodGrid j := by
      intro j hj
      have hjlt : j < ps.cols * ps.rows := Finset.mem_range.mp hj
      by_cases hact : cellActive cfg.pheromoneFadeThreshold 1 ps.toFoodGrid j
      · have hstep1 : ∀ k, (if cellActive cfg.pheromoneFadeThreshold 1 ps.toFoodGrid j ∧
              k ∈ ps.neighborsAt j then
            diffusionShare cfg.pheromoneFadeThreshold 1 cfg.toFood.diffusionRate
              ps.neighborsAt ps.toFoodGrid j
          else 0) = (if k ∈ (ps.neighborsAt j).toFinset then
            diffusionShare cfg.pheromoneFadeThreshold 1 cfg.toFood.diffusionRate
              ps.neighborsAt ps.toFoodGrid j
          else 0) := by
          intro k
          apply if_congr _ rfl rfl
          rw [List.mem_toFinset]
          constructor
          · rintro ⟨_, h2⟩; exact h2
          · intro h2; exact ⟨hact, h2⟩
        rw [Finset.sum_congr rfl (fun k _ => hstep1 k)]
        rw [Finset.sum_ite_mem]
        have hsub : (ps.neighborsAt j).toFinset ⊆ Finset.range (ps.cols * ps.rows) := by
          intro x hx
          rw [List.mem_toFinset] at hx
          exact Finset.mem_range.mpr ((neighborsAt_facts ps j hjlt).1 x hx).1
        rw [Finset.inter_eq_right.mpr hsub]
        rw [Finset.sum_const]
        rw [List.toFinset_card_of_nodup (hnd j)]
        rw [nsmul_eq_mul]
        unfold outflowTotal
        rw [if_pos hact]
      · have hz : ∀ k ∈ Finset.range (ps.cols * ps.rows),
            (if cellActive cfg.pheromoneFadeThreshold 1 ps.toFoodGrid j ∧
                k ∈ ps.neighborsAt j then
              diffusionShare cfg.pheromoneFadeThreshold 1 cfg.toFood.diffusionRate
                ps.neighborsAt ps.toFoodGrid j
            else 0) = 0 := by
          intro k _
          rw [if_neg (fun h => hact h.1)]
        rw [Finset.sum_congr rfl hz, Finset.sum_const, smul_zero]
        unfold outflowTotal
        rw [if_neg hact]
    rw [Finset.sum_congr rfl hswap]
    have hevap : ∀ k ∈ Finset.range (ps.cols * ps.rows),
        evaporateValue cfg.pheromoneFadeThreshold 1 (ps.toFoodGrid k) = ps.toFoodGrid k :=
      fun k _ => evaporateValue_one _ _
    rw [Finset.sum_congr rfl hevap]
    ring

end Antland

namespace Antland

/-- A 1×2 field whose two cells both hold 10 (above the fade threshold 5). -/
def psTwo : PheromoneSystem :=
  { resolution := 5, cols := 2, rows := 1, toFoodGrid := fun _ => 10,
    toNestGrid := fun _ => 0, dirtyRegions := ∅,
    visualizationNeedsUpdate := false, canvasReady := false }

/-- The default configuration with the "to food" evaporation rate set to 1. -/
def cfgEvapOne : Config :=
  { defaultConfig jsPi with
    toFood := { (defaultConfig jsPi).toFood with evaporationRate := 1 } }

/-- C3, counterexample: with evaporation rate 1 and no deposits on a closed
1×2 grid with both cells at 10, one pass changes the channel total from 20
to 19: cell 1's evaporation write into the double buffer overwrites the
diffusion inflow it had already received from cell 0, so the sum is not
conserved (and 5% of the mass is far beyond floating-point epsilon). -/
theorem C3_counterexample :
    cfgEvapOne.toFood.evaporationRate = 1 ∧
    (PheromoneSystem.update cfgEvapOne psTwo).toFoodGrid 0 = 10 ∧
    (PheromoneSystem.update cfgEvapOne psTwo).toFoodGrid 1 = 9 ∧
    ∑ k ∈ Finset.range (psTwo.cols * psTwo.rows),
        (PheromoneSystem.update cfgEvapOne psTwo).toFoodGrid k ≠
      ∑ k ∈ Finset.range (psTwo.cols * psTwo.rows), psTwo.toFoodGrid k := by
  have hp : cfgEvapOne.paused = false := rfl
  have hcols : 0 < psTwo.cols := by norm_num [psTwo]
  have hcf := channelFold_closedForm cfgEvapOne.pheromoneFadeThreshold
    cfgEvapOne.toFood.evaporationRate cfgEvapOne.toFood.diffusionRate
    psTwo.neighborsAt psTwo.toFoodGrid
    (fun j => neighborsAt_ne psTwo hcols j)
    (fun j => neighborsAt_nodup psTwo j) (psTwo.cols * psTwo.rows)
  have h0 : (PheromoneSystem.update cfgEvapOne psTwo).toFoodGrid 0 = 10 := by
    rw [(update_grids cfgEvapOne psTwo hp).1]
    unfold channelUpdate
    rw [hcf 0]
    norm_num [psTwo, cfgEvapOne, defaultConfig, outflowTotal, cellActive,
      diffusionShare, evaporateValue, Finset.sum_range_succ,
      PheromoneSystem.neighborsAt, getNeighborIndices, neighborOffsets,
      List.filterMap]
  have h1 : (PheromoneSystem.update cfgEvapOne psTwo).toFoodGrid 1 = 9 := by
    rw [(update_grids cfgEvapOne psTwo hp).1]
    unfold channelUpdate
    rw [hcf 1]
    norm_num [psTwo, cfgEvapOne, defaultConfig, outflowTotal, cellActive,
      diffusionShare, evaporateValue, Finset.sum_range_succ,
      PheromoneSystem.neighborsAt, getNeighborIndices, neighborOffsets,
      List.filterMap]
  refine ⟨rfl, h0, h1, ?_⟩
  have hN : psTwo.cols * psTwo.rows = 2 := rfl
  rw [hN, Finset.sum_range_succ, Finset.sum_range_succ, Finset.sum_range_zero,
    h0, h1]
  norm_num [psTwo]

/-- A 1×2 field with one cell above the fade threshold and one at 0. -/
def psTwoSingle : PheromoneSystem :=
  { resolution := 5, cols := 2, rows := 1,
    toFoodGrid := fun i => if i = 0 then 10 else 0,
    toNestGrid := fun _ => 0, dirtyRegions := ∅,
    visualizationNeedsUpdate := false, canvasReady := false }

/-- Witness for `C3_diffusion_conservation`: on a 1×2 grid with a single
above-threshold cell, the pass at evaporation rate 1 conserves the total. -/
theorem C3_witness :
    ∑ k ∈ Finset.range (psTwoSingle.cols * psTwoSingle.rows),
        (PheromoneSystem.update cfgEvapOne psTwoSingle).toFoodGrid k =
      ∑ k ∈ Finset.range (psTwoSingle.cols * psTwoSingle.rows),
        psTwoSingle.toFoodGrid k := by
  apply C3_diffusion_conservation cfgEvapOne psTwoSingle rfl rfl
  intro j k hj hk hjk hgj
  have hj2 : j < 2 := hj
  interval_cases j
  · have hn0 : psTwoSingle.neighborsAt 0 = [1] := by decide
    rw [hn0] at hk
    have hk1 : k = 1 := by
      rcases List.mem_singleton.mp hk with h
      exact h
    rw [hk1]
    norm_num [psTwoSingle, cfgEvapOne, defaultConfig]
  · exfalso
    revert hgj
    norm_num [psTwoSingle, cfgEvapOne, defaultConfig]

end Antland

namespace Antland

/-- C4 (amended): in an evaporation/diffusion pass, a cell with *no* inbound
diffusion is left exactly unchanged when its value is not above the fade
threshold (below-threshold cells are skipped by the evaporation branch —
this is what the counterexample exhibits at `threshold * 0.99`); it becomes
exactly 0 when its value is strictly above the threshold and its evaporated
value falls strictly below the threshold. -/
theorem C4_threshold_snapping (cfg : Config) (ps : PheromoneSystem) (i : ℕ)
    (hp : cfg.paused = false)
    (hin : i < ps.cols * ps.rows)
    (hnoin : ∀ j, j < ps.cols * ps.rows → i ∈ ps.neighborsAt j →
      ¬ cellActive cfg.pheromoneFadeThreshold cfg.toFood.evaporationRate
        ps.toFoodGrid j) :
    (¬ cfg.pheromoneFadeThreshold < ps.toFoodGrid i →
      (PheromoneSystem.update cfg ps).toFoodGrid i = ps.toFoodGrid i) ∧
    (cfg.pheromoneFadeThreshold < ps.toFoodGrid i →
      ps.toFoodGrid i * cfg.toFood.evaporationRate < cfg.pheromoneFadeThreshold →
      (PheromoneSystem.update cfg ps).toFoodGrid i = 0) := by
  have hcols : 0 < ps.cols := by
    rcases Nat.eq_zero_or_pos ps.cols with h0 | h
    · rw [h0, Nat.zero_mul] at hin; omega
    · exact h
  have hnb := fun j => neighborsAt_ne ps hcols j
  have hnd := fun j => neighborsAt_nodup ps j
  have hbase : (PheromoneSystem.update cfg ps).toFoodGrid i =
      evaporateValue cfg.pheromoneFadeThreshold cfg.toFood.evaporationRate
        (ps.toFoodGrid i) -
      outflowTotal cfg.pheromoneFadeThreshold cfg.toFood.evaporationRate
        cfg.toFood.diffusionRate ps.neighborsAt ps.toFoodGrid i := by
    rw [(update_grids cfg ps hp).1]
    unfold channelUpdate
    rw [channelFold_closedForm cfg.pheromoneFadeThreshold cfg.toFood.evaporationRate
      cfg.toFood.diffusionRate ps.neighborsAt ps.toFoodGrid hnb hnd
      (ps.cols * ps.rows) i]
    rw [if_pos hin]
    have hz : ∑ j ∈ Finset.range (ps.cols * ps.rows),
        (if cellActive cfg.pheromoneFadeThreshold cfg.toFood.evaporationRate
            ps.toFoodGrid j ∧ i ∈ ps.neighborsAt j ∧
            (ps.cols * ps.rows ≤ i ∨ i < j ∨
              ¬ cfg.pheromoneFadeThreshold < ps.toFoodGrid i) then
          diffusionShare cfg.pheromoneFadeThreshold cfg.toFood.evaporationRate
            cfg.toFood.diffusionRate ps.neighborsAt ps.toFoodGrid j
        else 0) = 0 := by
      apply Finset.sum_eq_zero
      intro j hj
      rw [if_neg]
      rintro ⟨h1, h2, _⟩
      exact hnoin j (Finset.mem_range.mp hj) h2 h1
    rw [hz, add_zero]
  constructor
  · intro hA
    have hev : evaporateValue cfg.pheromoneFadeThreshold cfg.toFood.evaporationRate
        (ps.toFoodGrid i) = ps.toFoodGrid i :=
      evaporateValue_of_le _ _ _ hA
    have hact : ¬ cellActive cfg.pheromoneFadeThreshold cfg.toFood.evaporationRate
        ps.toFoodGrid i := by
      unfold cellActive
      rw [hev]
      exact hA
    have hout : outflowTotal cfg.pheromoneFadeThreshold cfg.toFood.evaporationRate
        cfg.toFood.diffusionRate ps.neighborsAt ps.toFoodGrid i = 0 := by
      unfold outflowTotal
      rw [if_neg hact]
    rw [hbase, hev, hout, sub_zero]
  · intro hA hB
    have hev : evaporateValue cfg.pheromoneFadeThreshold cfg.toFood.evaporationRate
        (ps.toFoodGrid i) = 0 := by
      unfold evaporateValue
      rw [if_pos hA]
      dsimp only
      rw [if_pos hB]
    have hout : outflowTotal cfg.pheromoneFadeThreshold cfg.toFood.evaporationRate
        cfg.toFood.diffusionRate ps.neighborsAt ps.toFoodGrid i = 0 := by
      unfold outflowTotal diffusionShare
      rw [hev]
      by_cases hact : cellActive cfg.pheromoneFadeThreshold
          cfg.toFood.evaporationRate ps.toFoodGrid i
      · rw [if_pos hact, zero_mul, zero_div, mul_zero]
      · rw [if_neg hact]
    rw [hbase, hev, hout, sub_zero]

/-- A 1×1 field holding `threshold * 0.99 = 4.95`, just below the fade
threshold. -/
def psBelow : PheromoneSystem :=
  { resolution := 5, cols := 1, rows := 1, toFoodGrid := fun _ => 99 / 20,
    toNestGrid := fun _ => 0, dirtyRegions := ∅,
    visualizationNeedsUpdate := false, canvasReady := false }

/-- C4, counterexample: a cell at `threshold * 0.99` (with evaporation rate
`0.995 < 1` and no inbound diffusion) is *not* snapped to 0 by a pass — it
is below the threshold, so the evaporation branch skips it entirely and it
keeps the value `4.95 ≠ 0`. -/
theorem C4_counterexample :
    psBelow.toFoodGrid 0 =
      (defaultConfig jsPi).pheromoneFadeThreshold * 0.99 ∧
    (defaultConfig jsPi).toFood.evaporationRate < 1 ∧
    (PheromoneSystem.update (defaultConfig jsPi) psBelow).toFoodGrid 0 = 99 / 20 ∧
    (99 / 20 : ℚ) ≠ 0 := by
  refine ⟨by norm_num [psBelow, defaultConfig], by norm_num [defaultConfig], ?_,
    by norm_num⟩
  have hp : (defaultConfig jsPi).paused = false := rfl
  have hcols : 0 < psBelow.cols := by norm_num [psBelow]
  rw [(update_grids (defaultConfig jsPi) psBelow hp).1]
  unfold channelUpdate
  rw [channelFold_closedForm _ _ _ _ _
    (fun j => neighborsAt_ne psBelow hcols j)
    (fun j => neighborsAt_nodup psBelow j) (psBelow.cols * psBelow.rows) 0]
  norm_num [psBelow, defaultConfig, outflowTotal, cellActive, diffusionShare,
    evaporateValue, Finset.sum_range_succ, PheromoneSystem.neighborsAt,
    getNeighborIndices, neighborOffsets, List.filterMap]

/-- A 1×1 field holding `5.01`, just above the fade threshold, whose
evaporated value `4.98495` falls below it. -/
def psSnap : PheromoneSystem :=
  { resolution := 5, cols := 1, rows := 1, toFoodGrid := fun _ => 501 / 100,
    toNestGrid := fun _ => 0, dirtyRegions := ∅,
    visualizationNeedsUpdate := false, canvasReady := false }

/-- Witness for `C4_threshold_snapping`: both conclusions at concrete fields
(a below-threshold cell stays at `4.95`; an above-threshold cell whose
evaporated value drops below the threshold snaps to exactly 0). -/
theorem C4_witness :
    (PheromoneSystem.update (defaultConfig jsPi) psBelow).toFoodGrid 0 =
      psBelow.toFoodGrid 0 ∧
    (PheromoneSystem.update (defaultConfig jsPi) psSnap).toFoodGrid 0 = 0 := by
  constructor
  · apply (C4_threshold_snapping (defaultConfig jsPi) psBelow 0 rfl
      (by norm_num [psBelow]) ?_).1
    · norm_num [psBelow, defaultConfig]
    · intro j hj hmem
      have hN1 : psBelow.cols * psBelow.rows = 1 := rfl
      have hj0 : j = 0 := by omega
      subst hj0
      exfalso
      have hemp : psBelow.neighborsAt 0 = [] := by decide
      rw [hemp] at hmem
      exact List.not_mem_nil 0 hmem
  · apply (C4_threshold_snapping (defaultConfig jsPi) psSnap 0 rfl
      (by norm_num [psSnap]) ?_).2
    · norm_num [psSnap, defaultConfig]
    · norm_num [psSnap, defaultConfig]
    · intro j hj hmem
      have hN1 : psSnap.cols * psSnap.rows = 1 := rfl
      have hj0 : j = 0 := by omega
      subst hj0
      exfalso
      have hemp : psSnap.neighborsAt 0 = [] := by decide
      rw [hemp] at hmem
      exact List.not_mem_nil 0 hmem

end Antland

namespace Antland

/-! ## SpatialGrid (`src/js/utils.js` lines 81-204)

The uniform bucket grid.  Entities are modelled by an arbitrary type `α`;
each bucket is the list of entities it holds (`this.grid[index]`).  The
entity-mutating operations `insert` / `remove` / `update` write the entity's
`gridIndex` back-pointer and are not needed by the verified claims; the
query side is modelled in full. -/
structure SpatialGrid (α : Type) where
  cellSize : ℚ
  cols : ℕ
  rows : ℕ
  grid : ℕ → List α

/-- `posToIndex(position)` (utils.js lines 90-100). -/
def SpatialGrid.posToIndex {α : Type} (sg : SpatialGrid α) (position : Vec) : ℤ :=
  let col : ℤ := ⌊position.1 / sg.cellSize⌋
  let row : ℤ := ⌊position.2 / sg.cellSize⌋
  if col < 0 ∨ (sg.cols : ℤ) ≤ col ∨ row < 0 ∨ (sg.rows : ℤ) ≤ row then -1
  else row * (sg.cols : ℤ) + col

/-- `queryPosition(position)` (utils.js lines 140-143). -/
def SpatialGrid.queryPosition {α : Type} (sg : SpatialGrid α) (position : Vec) :
    List α :=
  let index := sg.posToIndex position
  if index ≠ -1 then sg.grid index.toNat else []

/-- The inclusive integer range `lo, lo+1, ..., hi` of a JS
`for (let i = lo; i <= hi; i++)` loop. -/
def intRange (lo hi : ℤ) : List ℤ :=
  (List.range (hi + 1 - lo).toNat).map (fun n : ℕ => lo + (n : ℤ))

/-- `queryRadius(position, radius)` (utils.js lines 146-164): clamp the cell
bounds of the query circle's axis-aligned bounding box and concatenate every
bucket in the rectangle. -/
def SpatialGrid.queryRadius {α : Type} (sg : SpatialGrid α) (position : Vec)
    (radius : ℚ) : List α :=
  let minCol := max 0 ⌊(position.1 - radius) / sg.cellSize⌋
  let maxCol := min ((sg.cols : ℤ) - 1) ⌊(position.1 + radius) / sg.cellSize⌋
  let minRow := max 0 ⌊(position.2 - radius) / sg.cellSize⌋
  let maxRow := min ((sg.rows : ℤ) - 1) ⌊(position.2 + radius) / sg.cellSize⌋
  (intRange minRow maxRow).flatMap fun row =>
    (intRange minCol maxCol).flatMap fun col =>
      sg.grid (row * (sg.cols : ℤ) + col).toNat

/-- Membership in an inclusive integer range. -/
theorem mem_intRange {lo hi k : ℤ} : k ∈ intRange lo hi ↔ lo ≤ k ∧ k ≤ hi := by
  unfold intRange
  rw [List.mem_map]
  constructor
  · rintro ⟨n, hn, rfl⟩
    rw [List.mem_range] at hn
    omega
  · rintro ⟨h1, h2⟩
    refine ⟨(k - lo).toNat, ?_, ?_⟩
    · rw [List.mem_range]
      omega
    · omega

/-- The clamped floor bounds of `queryRadius` pick out exactly the in-bounds
cells whose half-open interval overlaps the closed interval
`[x - r, x + r]`. -/
theorem clamped_floor_range_iff (x r cs : ℚ) (n : ℕ) (c : ℤ) (hcs : 0 < cs) :
    (max 0 ⌊(x - r) / cs⌋ ≤ c ∧ c ≤ min ((n : ℤ) - 1) ⌊(x + r) / cs⌋) ↔
      (0 ≤ c ∧ c < (n : ℤ) ∧ (c : ℚ) * cs ≤ x + r ∧ x - r < ((c : ℚ) + 1) * cs) := by
  rw [max_le_iff, le_min_iff]
  constructor
  · rintro ⟨⟨h0, hfl⟩, hcn, hfu⟩
    refine ⟨h0, by omega, ?_, ?_⟩
    · have h := Int.le_floor.mp hfu
      exact (le_div_iff hcs).mp h
    · have h2 : ⌊(x - r) / cs⌋ < c + 1 := by omega
      have h3 : (x - r) / cs < ((c + 1 : ℤ) : ℚ) := Int.floor_lt.mp h2
      rw [div_lt_iff hcs] at h3
      push_cast at h3
      linarith
  · rintro ⟨h0, hcn, hup, hlow⟩
    refine ⟨⟨h0, ?_⟩, by omega, ?_⟩
    · have h3 : (x - r) / cs < ((c + 1 : ℤ) : ℚ) := by
        rw [div_lt_iff hcs]
        push_cast
        linarith
      have := Int.floor_lt.mpr h3
      omega
    · exact Int.le_floor.mpr ((le_div_iff hcs).mpr hup)

/-- A square bound gives a two-sided bound. -/
theorem bounds_of_sq_le_sq (a r : ℚ) (hr : 0 ≤ r) (h : a ^ 2 ≤ r ^ 2) :
    -r ≤ a ∧ a ≤ r := by
  constructor
  · nlinarith [sq_nonneg (a + r)]
  · nlinarith [sq_nonneg (a - r)]

/-- C9: `queryRadius` returns exactly the entities held in the buckets of the
in-bounds cells overlapping the axis-aligned bounding box of the query
circle, and consequently contains every indexed entity whose bucket matches
a position within the exact query radius (a superset of the true radius
match, membership only — no ordering guarantee). -/
theorem C9_queryRadius_spec {α : Type} (sg : SpatialGrid α) (position : Vec)
    (radius : ℚ) (hcs : 0 < sg.cellSize) :
    (∀ e : α, e ∈ sg.queryRadius position radius ↔
      ∃ col row : ℤ, 0 ≤ col ∧ col < (sg.cols : ℤ) ∧ 0 ≤ row ∧ row < (sg.rows : ℤ) ∧
        (col : ℚ) * sg.cellSize ≤ position.1 + radius ∧
        position.1 - radius < ((col : ℚ) + 1) * sg.cellSize ∧
        (row : ℚ) * sg.cellSize ≤ position.2 + radius ∧
        position.2 - radius < ((row : ℚ) + 1) * sg.cellSize ∧
        e ∈ sg.grid (row * (sg.cols : ℤ) + col).toNat) ∧
    (0 ≤ radius → ∀ (e : α) (p : Vec), sg.posToIndex p ≠ -1 →
      e ∈ sg.grid (sg.posToIndex p).toNat →
      (p.1 - position.1) ^ 2 + (p.2 - position.2) ^ 2 ≤ radius ^ 2 →
      e ∈ sg.queryRadius position radius) := by
  have hmem : ∀ e : α, e ∈ sg.queryRadius position radius ↔
      ∃ col row : ℤ, 0 ≤ col ∧ col < (sg.cols : ℤ) ∧ 0 ≤ row ∧ row < (sg.rows : ℤ) ∧
        (col : ℚ) * sg.cellSize ≤ position.1 + radius ∧
        position.1 - radius < ((col : ℚ) + 1) * sg.cellSize ∧
        (row : ℚ) * sg.cellSize ≤ position.2 + radius ∧
        position.2 - radius < ((row : ℚ) + 1) * sg.cellSize ∧
        e ∈ sg.grid (row * (sg.cols : ℤ) + col).toNat := by
    intro e
    unfold SpatialGrid.queryRadius
    rw [List.mem_flatMap]
    constructor
    · rintro ⟨row, hrow, hin⟩
      rw [List.mem_flatMap] at hin
      obtain ⟨col, hcol, he⟩ := hin
      rw [mem_intRange] at hrow hcol
      have hc := (clamped_floor_range_iff position.1 radius sg.cellSize sg.cols col hcs).mp hcol
      have hr := (clamped_floor_range_iff position.2 radius sg.cellSize sg.rows row hcs).mp hrow
      exact ⟨col, row, hc.1, hc.2.1, hr.1, hr.2.1, hc.2.2.1, hc.2.2.2,
        hr.2.2.1, hr.2.2.2, he⟩
    · rintro ⟨col, row, h1, h2, h3, h4, h5, h6, h7, h8, he⟩
      refine ⟨row, ?_, ?_⟩
      · rw [mem_intRange]
        exact (clamped_floor_range_iff position.2 radius sg.cellSize sg.rows row hcs).mpr
          ⟨h3, h4, h7, h8⟩
      · rw [List.mem_flatMap]
        refine ⟨col, ?_, he⟩
        rw [mem_intRange]
        exact (clamped_floor_range_iff position.1 radius sg.cellSize sg.cols col hcs).mpr
          ⟨h1, h2, h5, h6⟩
  refine ⟨hmem, ?_⟩
  intro hrad e p hpidx he hdist
  unfold SpatialGrid.posToIndex at hpidx he
  by_cases hoob : ⌊p.1 / sg.cellSize⌋ < 0 ∨ (sg.cols : ℤ) ≤ ⌊p.1 / sg.cellSize⌋ ∨
      ⌊p.2 / sg.cellSize⌋ < 0 ∨ (sg.rows : ℤ) ≤ ⌊p.2 / sg.cellSize⌋
  · exact absurd (if_pos hoob) hpidx
  · rw [if_neg hoob] at he
    push_neg at hoob
    obtain ⟨hc0, hccols, hr0, hrrows⟩ := hoob
    rw [hmem e]
    refine ⟨⌊p.1 / sg.cellSize⌋, ⌊p.2 / sg.cellSize⌋, by omega, by omega, by omega,
      by omega, ?_, ?_, ?_, ?_, he⟩
    · have hfle : ((⌊p.1 / sg.cellSize⌋ : ℤ) : ℚ) ≤ p.1 / sg.cellSize := Int.floor_le _
      have h1 : ((⌊p.1 / sg.cellSize⌋ : ℤ) : ℚ) * sg.cellSize ≤ p.1 :=
        (le_div_iff hcs).mp hfle
      have hdx := bounds_of_sq_le_sq (p.1 - position.1) radius hrad
        (by nlinarith [sq_nonneg (p.2 - position.2)])
      linarith [hdx.2]
    · have hflt : p.1 / sg.cellSize < ((⌊p.1 / sg.cellSize⌋ : ℤ) : ℚ) + 1 :=
        Int.lt_floor_add_one _
      have h1 : p.1 < (((⌊p.1 / sg.cellSize⌋ : ℤ) : ℚ) + 1) * sg.cellSize := by
        rw [← div_lt_iff hcs]
        exact hflt
      have hdx := bounds_of_sq_le_sq (p.1 - position.1) radius hrad
        (by nlinarith [sq_nonneg (p.2 - position.2)])
      linarith [hdx.1]
    · have hfle : ((⌊p.2 / sg.cellSize⌋ : ℤ) : ℚ) ≤ p.2 / sg.cellSize := Int.floor_le _
      have h1 : ((⌊p.2 / sg.cellSize⌋ : ℤ) : ℚ) * sg.cellSize ≤ p.2 :=
        (le_div_iff hcs).mp hfle
      have hdy := bounds_of_sq_le_sq (p.2 - position.2) radius hrad
        (by nlinarith [sq_nonneg (p.1 - position.1)])
      linarith [hdy.2]
    · have hflt : p.2 / sg.cellSize < ((⌊p.2 / sg.cellSize⌋ : ℤ) : ℚ) + 1 :=
        Int.lt_floor_add_one _
      have h1 : p.2 < (((⌊p.2 / sg.cellSize⌋ : ℤ) : ℚ) + 1) * sg.cellSize := by
        rw [← div_lt_iff hcs]
        exact hflt
      have hdy := bounds_of_sq_le_sq (p.2 - position.2) radius hrad
        (by nlinarith [sq_nonneg (p.1 - position.1)])
      linarith [hdy.1]

end Antland

namespace Antland

/-- A concrete 3×3 bucket grid of cell size 10 holding entity `7` in cell 4. -/
def sgEx : SpatialGrid ℕ :=
  { cellSize := 10, cols := 3, rows := 3,
    grid := fun i => if i = 4 then [7] else [] }

/-- Witness for `C9_queryRadius_spec`: entity `7`, indexed at position
`(12, 12)` within distance 5 of the query point `(15, 15)`, is returned. -/
theorem C9_witness : (7 : ℕ) ∈ sgEx.queryRadius (15, 15) 5 := by
  apply (C9_queryRadius_spec sgEx (15, 15) 5 (by norm_num [sgEx])).2
    (by norm_num) 7 (12, 12)
  · norm_num [SpatialGrid.posToIndex, sgEx]
  · norm_num [SpatialGrid.posToIndex, sgEx]
    simp
  · norm_num

end Antland

namespace Antland

/-! ## Vector and math utilities (`src/js/utils.js` lines 6-78, 206-247) -/

/-- `Vector.magnitude` (uses `Math.sqrt`, abstracted in `prims`). -/
def Vector.magnitude (prims : MathPrims) (v : Vec) : ℚ :=
  prims.sqrt (v.1 * v.1 + v.2 * v.2)

/-- `Vector.subtract`. -/
def Vector.subtract (v1 v2 : Vec) : Vec :=
  (v1.1 - v2.1, v1.2 - v2.2)

/-- `Vector.normalize`. -/
def Vector.normalize (prims : MathPrims) (v : Vec) : Vec :=
  let mag := Vector.magnitude prims v
  if mag = 0 then (0, 0) else (v.1 / mag, v.2 / mag)

/-- `Vector.distance`. -/
def Vector.distance (prims : MathPrims) (v1 v2 : Vec) : ℚ :=
  Vector.magnitude prims (Vector.subtract v1 v2)

/-- Truncation toward zero, as used by the JS `%` remainder operator. -/
def jsTrunc (q : ℚ) : ℤ :=
  if 0 ≤ q then ⌊q⌋ else ⌈q⌉

/-- The JS `%` remainder (sign of the dividend). -/
def jsMod (x m : ℚ) : ℚ :=
  x - m * (jsTrunc (x / m) : ℚ)

/-- `Math.sign`. -/
def jsSign (q : ℚ) : ℚ :=
  if q > 0 then 1 else if q < 0 then -1 else 0

/-- `MathUtils.angleDiff(a, b)` (utils.js lines 241-246). -/
def MathUtils.angleDiff (prims : MathPrims) (a b : ℚ) : ℚ :=
  let diff := jsMod (b - a) (2 * prims.pi)
  let diff2 := if diff > prims.pi then diff - 2 * prims.pi else diff
  if diff2 < -prims.pi then diff2 + 2 * prims.pi else diff2

/-! ## Obstacles (`src/unnamed/part_001` second half / `ObstacleManager`) -/

/-- An obstacle: the fields read by the avoidance logic. -/
structure Obstacle where
  position : Vec
  radius : ℚ

/-- `ObstacleManager.calculateAvoidanceForce(ant)` (part of utils source,
lines 574-603 of the obstacle file): accumulate a repulsion force from every
nearby obstacle; `none` when no obstacle is nearby. -/
def ObstacleManager.calculateAvoidanceForce (cfg : Config) (prims : MathPrims)
    (obstacles : List Obstacle) (antPosition : Vec) : Option Vec :=
  let avoidanceRadius := cfg.sensorDistance * 1.5
  let result := obstacles.foldl (fun (acc : Vec × Bool) obstacle =>
    let dist := Vector.distance prims antPosition obstacle.position
    if dist < obstacle.radius + avoidanceRadius then
      let awayDirection := Vector.subtract antPosition obstacle.position
      let awayNorm := Vector.normalize prims awayDirection
      let forceMagnitude := max 0 (1 - (dist - obstacle.radius) / avoidanceRadius)
      ((acc.1.1 + awayNorm.1 * forceMagnitude * 2,
        acc.1.2 + awayNorm.2 * forceMagnitude * 2), true)
    else acc) ((0, 0), false)
  if result.2 then some (Vector.normalize prims result.1) else none

/-! ## Food (`src/unnamed/part_001`) -/

/-- A food source: the fields read/written by the collection logic (visual
particle state is rendering-only and omitted). -/
structure Food where
  position : Vec
  quantity : ℚ
  initialQuantity : ℚ
  size : ℚ
  depleted : Bool
  displayRadius : ℚ

instance : Inhabited Food :=
  ⟨{ position := (0, 0), quantity := 0, initialQuantity := 0, size := 0,
     depleted := true, displayRadius := 0 }⟩

/-- `Food.take(amount)` (part_001 lines 34-48): grant `min(amount, quantity)`,
decrement the stock, refresh the display radius, and mark depletion; returns
the actually-taken amount next to the updated source. -/
def Food.take (prims : MathPrims) (food : Food) (amount : ℚ) : ℚ × Food :=
  let amount := min amount food.quantity
  let quantity := food.quantity - amount
  let displayRadius := prims.sqrt quantity * food.size * 0.25
  let depleted := if quantity ≤ 0 then true else food.depleted
  (amount, { food with quantity := quantity, displayRadius := displayRadius,
                       depleted := depleted })

/-- `Food.canCollect(antPosition)` (part_001 lines 119-122). -/
def Food.canCollect (cfg : Config) (prims : MathPrims) (food : Food)
    (antPosition : Vec) : Bool :=
  !food.depleted &&
    decide (Vector.distance prims food.position antPosition <
      food.displayRadius + cfg.antSize)

/-- The loop of `FoodManager.canAntCollectFood(ant)` (part_001 lines
296-303), which returns the first collectable source.  JS returns the food
object by reference (`Food.take` then mutates it in place); here the
position of that object in the manager's list identifies it. -/
def canAntCollectFoodAux (cfg : Config) (prims : MathPrims) (antPosition : Vec) :
    List Food → ℕ → Option ℕ
  | [], _ => none
  | food :: rest, i =>
    if Food.canCollect cfg prims food antPosition then some i
    else canAntCollectFoodAux cfg prims antPosition rest (i + 1)

/-- `FoodManager.canAntCollectFood(ant)`, as the index of the first
collectable source. -/
def FoodManager.canAntCollectFoodIdx (cfg : Config) (prims : MathPrims)
    (foods : List Food) (antPosition : Vec) : Option ℕ :=
  canAntCollectFoodAux cfg prims antPosition foods 0

/-! ## Nest (`src/js/nest.js`) -/

/-- The nest: the fields read/written by the agent logic (tunnels, entrances
and particles are rendering-only and omitted). -/
structure Nest where
  position : Vec
  size : ℚ
  foodStored : ℚ

/-- `Nest.contains(position, buffer = 0)` (nest.js lines 84-86). -/
def Nest.contains (prims : MathPrims) (nest : Nest) (position : Vec)
    (buffer : ℚ) : Bool :=
  decide (Vector.distance prims nest.position position < nest.size + buffer)

/-- `Nest.storeFood(amount)` (nest.js lines 106-108). -/
def Nest.storeFood (nest : Nest) (amount : ℚ) : Nest :=
  { nest with foodStored := nest.foodStored + amount }

end Antland

namespace Antland

/-! ## Ant and AntColony (`src/unnamed/part_004`)

`Math.random()` draws are passed explicitly: `rA` is the value of the first
`Math.random()` call executed inside the behavior function of a tick
(the exploration draw in `searchForFood`; in `returnToNest` either the
direction jitter on nest arrival or the return-home-bias draw), `rB` the
second (the random-turn magnitude in `searchForFood`). -/

/-- The agent's two behavior states (`this.state`). -/
inductive AntState where
  | searching
  | returning
deriving DecidableEq

/-- An ant: every mutable field of the JS class that the simulation logic
reads or writes (antenna geometry and color are rendering-only and
omitted; `gridIndex` is never used, as ants are not inserted into the
spatial grid). -/
structure Ant where
  id : ℕ
  nestPosition : Vec
  position : Vec
  direction : ℚ
  speed : ℚ
  turnSpeed : ℚ
  size : ℚ
  carryingFood : ℚ
  state : AntState
  energy : ℚ
  isAlive : Bool
  trail : List Vec
  trailMaxLength : ℕ
  lastDepositionTime : ℕ
  depositionInterval : ℕ
  explorationRate : ℚ

/-- The parts of the `simulation` object an ant's update reads and writes. -/
structure SimState where
  width : ℚ
  height : ℚ
  nest : Nest
  foods : List Food
  obstacles : List Obstacle
  pheromoneSystem : PheromoneSystem

/-- `Ant.calculateDirectionToNest()` (part_004 lines 256-260). -/
def Ant.calculateDirectionToNest (prims : MathPrims) (ant : Ant) : ℚ :=
  let dx := ant.nestPosition.1 - ant.position.1
  let dy := ant.nestPosition.2 - ant.position.2
  prims.atan2 dy dx

/-- `Ant.searchForFood(simulation)` (part_004 lines 118-176).  The food
particle effect on collection is rendering-only and omitted. -/
def Ant.searchForFood (cfg : Config) (prims : MathPrims) (sim : SimState)
    (rA rB : ℚ) (ant : Ant) : Ant × SimState :=
  match FoodManager.canAntCollectFoodIdx cfg prims sim.foods ant.position with
  | some k =>
    let foodSource := sim.foods.getD k default
    let tk := Food.take prims foodSource 1
    let foods := sim.foods.set k tk.2
    let ant := { ant with carryingFood := tk.1 }
    if ant.carryingFood > 0 then
      ({ ant with
          state := AntState.returning
          direction := Ant.calculateDirectionToNest prims ant },
       { sim with foods := foods })
    else (ant, { sim with foods := foods })
  | none =>
  match ObstacleManager.calculateAvoidanceForce cfg prims sim.obstacles ant.position with
  | some avoidanceForce =>
    let avoidanceAngle := prims.atan2 avoidanceForce.2 avoidanceForce.1
    ({ ant with direction := ant.direction * 0.3 + avoidanceAngle * 0.7 }, sim)
  | none =>
    let sensors := PheromoneSystem.sensePheromone prims sim.pheromoneSystem
      sim.pheromoneSystem.toFoodGrid ant.position ant.direction
      cfg.sensorAngle cfg.sensorDistance
    if rA < ant.explorationRate then
      ({ ant with direction := ant.direction + (rB - 0.5) * ant.turnSpeed * 2 }, sim)
    else
      let maxPheromone := max sensors.forward (max sensors.left sensors.right)
      if maxPheromone > cfg.pheromoneFadeThreshold then
        if sensors.left > sensors.forward ∧ sensors.left > sensors.right then
          ({ ant with direction := ant.direction - ant.turnSpeed }, sim)
        else if sensors.right > sensors.forward ∧ sensors.right > sensors.left then
          ({ ant with direction := ant.direction + ant.turnSpeed }, sim)
        else (ant, sim)
      else
        ({ ant with direction := ant.direction + (rB - 0.5) * ant.turnSpeed }, sim)

/-- `Ant.returnToNest(simulation)` (part_004 lines 179-253).  The food
storage particle effect is rendering-only and omitted. -/
def Ant.returnToNest (cfg : Config) (prims : MathPrims) (sim : SimState)
    (rA : ℚ) (ant : Ant) : Ant × SimState :=
  if Nest.contains prims sim.nest ant.position 0 then
    let nest := Nest.storeFood sim.nest ant.carryingFood
    let ant := { ant with
      carryingFood := 0
      state := AntState.searching
      direction := ant.direction + prims.pi + (rA - 0.5) * prims.pi / 2
      energy := cfg.energyCapacity }
    (ant, { sim with nest := nest })
  else
  match ObstacleManager.calculateAvoidanceForce cfg prims sim.obstacles ant.position with
  | some avoidanceForce =>
    let avoidanceAngle := prims.atan2 avoidanceForce.2 avoidanceForce.1
    ({ ant with direction := ant.direction * 0.3 + avoidanceAngle * 0.7 }, sim)
  | none =>
    let sensors := PheromoneSystem.sensePheromone prims sim.pheromoneSystem
      sim.pheromoneSystem.toNestGrid ant.position ant.direction
      cfg.sensorAngle cfg.sensorDistance
    let nestVector : Vec := (ant.nestPosition.1 - ant.position.1,
      ant.nestPosition.2 - ant.position.2)
    let distanceToNest := Vector.magnitude prims nestVector
    let angleToNest := prims.atan2 nestVector.2 nestVector.1
    if distanceToNest < cfg.nestSize * 2 then
      ({ ant with direction := angleToNest }, sim)
    else if rA < cfg.returnHomeBias then
      let angleDiff := MathUtils.angleDiff prims ant.direction angleToNest
      ({ ant with direction :=
          ant.direction + jsSign angleDiff * min |angleDiff| ant.turnSpeed }, sim)
    else
      let maxPheromone := max sensors.forward (max sensors.left sensors.right)
      if maxPheromone > cfg.pheromoneFadeThreshold then
        if sensors.left > sensors.forward ∧ sensors.left > sensors.right then
          ({ ant with direction := ant.direction - ant.turnSpeed }, sim)
        else if sensors.right > sensors.forward ∧ sensors.right > sensors.left then
          ({ ant with direction := ant.direction + ant.turnSpeed }, sim)
        else (ant, sim)
      else
        let angleDiff := MathUtils.angleDiff prims ant.direction angleToNest
        ({ ant with direction :=
            ant.direction + jsSign angleDiff * min |angleDiff| (ant.turnSpeed * 0.5) },
         sim)

/-- `Ant.boundPosition(width, height)` (part_004 lines 97-115). -/
def Ant.boundPosition (prims : MathPrims) (width height : ℚ) (ant : Ant) : Ant :=
  let buffer : ℚ := 10
  let ant :=
    if ant.position.1 < buffer then
      { ant with
        position := (buffer, ant.position.2)
        direction := prims.pi - ant.direction }
    else if ant.position.1 > width - buffer then
      { ant with
        position := (width - buffer, ant.position.2)
        direction := prims.pi - ant.direction }
    else ant
  if ant.position.2 < buffer then
    { ant with position := (ant.position.1, buffer), direction := -ant.direction }
  else if ant.position.2 > height - buffer then
    { ant with
      position := (ant.position.1, height - buffer)
      direction := -ant.direction }
  else ant

/-- `Ant.depositPheromones(simulation)` (part_004 lines 263-288). -/
def Ant.depositPheromones (cfg : Config) (sim : SimState) (ant : Ant) :
    Ant × SimState :=
  let ant := { ant with lastDepositionTime := ant.lastDepositionTime + 1 }
  if ant.lastDepositionTime < ant.depositionInterval then (ant, sim)
  else
    let ant := { ant with lastDepositionTime := 0 }
    match ant.state with
    | AntState.searching =>
      let strengthModifier : ℚ := 1
      let ph := PheromoneSystem.depositToNest cfg sim.pheromoneSystem ant.position
        (cfg.toNest.strength * strengthModifier)
      (ant, { sim with pheromoneSystem := ph })
    | AntState.returning =>
      let strengthModifier := ant.carryingFood
      let ph := PheromoneSystem.depositToFood cfg sim.pheromoneSystem ant.position
        (cfg.toFood.strength * strengthModifier)
      (ant, { sim with pheromoneSystem := ph })

/-- `Ant.updateTrail()` (part_004 lines 291-296). -/
def Ant.updateTrail (ant : Ant) : Ant :=
  let trail := ant.trail ++ [ant.position]
  let trail := if trail.length > ant.trailMaxLength then trail.drop 1 else trail
  { ant with trail := trail }

/-- `Ant.update(simulation)` (part_004 lines 49-94). -/
def Ant.update (cfg : Config) (prims : MathPrims) (sim : SimState)
    (rA rB : ℚ) (ant : Ant) : Ant × SimState :=
  if !ant.isAlive || cfg.paused then (ant, sim)
  else
    let ant := { ant with
      energy := ant.energy - cfg.energyConsumption * cfg.speedMultiplier }
    if ant.energy ≤ 0 then ({ ant with isAlive := false }, sim)
    else
      let step :=
        if ant.state = AntState.searching then
          Ant.searchForFood cfg prims sim rA rB ant
        else if ant.state = AntState.returning then
          Ant.returnToNest cfg prims sim rA ant
        else (ant, sim)
      let ant := step.1
      let sim := step.2
      let currentSpeed := ant.speed
      let currentSpeed :=
        if ant.carryingFood > 0 then currentSpeed * cfg.carrierSpeed else currentSpeed
      let currentSpeed := currentSpeed * cfg.speedMultiplier
      let ant := { ant with position :=
        (ant.position.1 + prims.cos ant.direction * currentSpeed,
         ant.position.2 + prims.sin ant.direction * currentSpeed) }
      let ant := Ant.boundPosition prims sim.width sim.height ant
      let step2 := Ant.depositPheromones cfg sim ant
      let ant := step2.1
      let sim := step2.2
      let ant := if cfg.trailHistory then Ant.updateTrail ant
        else { ant with trail := [] }
      (ant, sim)

/-- The `Ant` constructor (part_004 lines 6-46); `r1`, `r2`, `r3` are the
three `Math.random()` draws for spawn angle, spawn distance and initial
direction. -/
def Ant.spawn (cfg : Config) (prims : MathPrims) (nestPosition : Vec)
    (id : ℕ) (r1 r2 r3 : ℚ) : Ant :=
  let angle := r1 * prims.pi * 2
  let distance := r2 * cfg.nestSize * 0.8
  { id := id
    nestPosition := nestPosition
    position := (nestPosition.1 + prims.cos angle * distance,
                 nestPosition.2 + prims.sin angle * distance)
    direction := r3 * prims.pi * 2
    speed := cfg.antSpeed
    turnSpeed := cfg.turnSpeed
    size := cfg.antSize
    carryingFood := 0
    state := AntState.searching
    energy := cfg.energyCapacity
    isAlive := true
    trail := []
    trailMaxLength := cfg.trailHistoryLength
    lastDepositionTime := 0
    depositionInterval := 2
    explorationRate := cfg.explorationRate }

/-- The ant colony (part_004 lines 373-441). -/
structure AntColony where
  nestPosition : Vec
  ants : List Ant
  antIdCounter : ℕ

/-- `AntColony.update(simulation)` (part_004 lines 399-417): update every ant
in order (threading the shared simulation state), remove dead ants, then
possibly spawn one new ant.  `rands i` is the pair of `Math.random()` draws
consumed by the `i`-th ant's update, `spawnRand` the spawn draw and
`newAntRands` the constructor draws of a spawned ant. -/
def AntColony.update (cfg : Config) (prims : MathPrims) (sim : SimState)
    (rands : ℕ → ℚ × ℚ) (spawnRand : ℚ) (newAntRands : ℚ × ℚ × ℚ)
    (colony : AntColony) : AntColony × SimState :=
  if cfg.paused then (colony, sim)
  else
    let folded := colony.ants.foldl
      (fun (acc : List Ant × SimState × ℕ) ant =>
        let r := rands acc.2.2
        let step := Ant.update cfg prims acc.2.1 r.1 r.2 ant
        (acc.1 ++ [step.1], step.2, acc.2.2 + 1))
      ([], sim, 0)
    let ants := folded.1.filter (fun ant => ant.isAlive)
    let sim := folded.2.1
    if ants.length < cfg.antMaxCount then
      let spawnChance := cfg.spawnRate * cfg.speedMultiplier / 60
      if spawnRand < spawnChance then
        ({ nestPosition := colony.nestPosition,
           ants := ants ++ [Ant.spawn cfg prims colony.nestPosition
             colony.antIdCounter newAntRands.1 newAntRands.2.1 newAntRands.2.2],
           antIdCounter := colony.antIdCounter + 1 }, sim)
      else ({ colony with ants := ants }, sim)
    else ({ colony with ants := ants }, sim)

end Antland

namespace Antland

/-- C6: a searching agent within collection range of a non-depleted food
source (`canAntCollectFood` returns one) requests 1 unit, stores the amount
actually granted by `Food.take` (which is `min 1 quantity`), updates that
source in place, and — whenever the granted amount is positive — switches to
`returning` with heading set to the exact bearing from its position to the
nest, within the same tick. -/
theorem C6_collect_transition (cfg : Config) (prims : MathPrims) (sim : SimState)
    (rA rB : ℚ) (ant : Ant) (k : ℕ)
    (hfind : FoodManager.canAntCollectFoodIdx cfg prims sim.foods ant.position =
      some k) :
    (Ant.searchForFood cfg prims sim rA rB ant).1.carryingFood =
      (Food.take prims (sim.foods.getD k default) 1).1 ∧
    (Food.take prims (sim.foods.getD k default) 1).1 =
      min 1 (sim.foods.getD k default).quantity ∧
    (Ant.searchForFood cfg prims sim rA rB ant).2.foods =
      sim.foods.set k (Food.take prims (sim.foods.getD k default) 1).2 ∧
    (0 < (Food.take prims (sim.foods.getD k default) 1).1 →
      (Ant.searchForFood cfg prims sim rA rB ant).1.state = AntState.returning ∧
      (Ant.searchForFood cfg prims sim rA rB ant).1.direction =
        prims.atan2 (ant.nestPosition.2 - ant.position.2)
          (ant.nestPosition.1 - ant.position.1)) := by
  unfold Ant.searchForFood
  rw [hfind]
  dsimp only
  split_ifs with hpos
  · exact ⟨rfl, rfl, rfl, fun _ => ⟨rfl, rfl⟩⟩
  · refine ⟨rfl, rfl, rfl, fun h => absurd h hpos⟩

/-- C7: a live agent whose energy equals the per-tick consumption (with
speed multiplier 1) has its energy decremented to 0 on the next update, is
marked dead, and the tick ends immediately — position, state, heading,
trail, and the whole simulation state (food, nest, pheromones) are
untouched; the colony update of that same step then removes it from the
live set (no agent remains when the spawn draw fails). -/
theorem C7_energy_death (cfg : Config) (prims : MathPrims) (sim : SimState)
    (ant : Ant) (halive : ant.isAlive = true) (hp : cfg.paused = false)
    (hmult : cfg.speedMultiplier = 1)
    (he : ant.energy = cfg.energyConsumption) :
    (∀ rA rB : ℚ, Ant.update cfg prims sim rA rB ant =
      ({ ant with energy := 0, isAlive := false }, sim)) ∧
    (∀ (rands : ℕ → ℚ × ℚ) (spawnRand : ℚ) (newAntRands : ℚ × ℚ × ℚ),
      ¬ spawnRand < cfg.spawnRate * cfg.speedMultiplier / 60 →
      (AntColony.update cfg prims sim rands spawnRand newAntRands
        { nestPosition := ant.nestPosition, ants := [ant],
          antIdCounter := 1 }).1.ants = [] ∧
      (AntColony.update cfg prims sim rands spawnRand newAntRands
        { nestPosition := ant.nestPosition, ants := [ant],
          antIdCounter := 1 }).2 = sim) := by
  have hdead : ∀ rA rB : ℚ, Ant.update cfg prims sim rA rB ant =
      ({ ant with energy := 0, isAlive := false }, sim) := by
    intro rA rB
    unfold Ant.update
    rw [halive, hp]
    simp only [Bool.not_true, Bool.or_false, Bool.false_eq_true, if_false]
    rw [he, hmult, mul_one, sub_self]
    simp only [le_refl, if_pos]
  refine ⟨hdead, ?_⟩
  intro rands spawnRand newAntRands hspawn
  unfold AntColony.update
  rw [hp]
  simp only [Bool.false_eq_true, if_false, List.foldl_cons, List.foldl_nil]
  rw [hdead (rands 0).1 (rands 0).2]
  dsimp only
  have hfilt : List.filter (fun a : Ant => a.isAlive)
      ([] ++ [({ ant with energy := 0, isAlive := false } : Ant)]) = [] := by
    simp
  rw [hfilt]
  simp only [List.length_nil]
  by_cases hmax : 0 < cfg.antMaxCount
  · rw [if_pos hmax, if_neg hspawn]
    exact ⟨rfl, rfl⟩
  · rw [if_neg hmax]
    exact ⟨rfl, rfl⟩

end Antland

namespace Antland

/-- C8: in the exploitation branch a `searching` agent senses the "to food"
channel and a `returning` agent senses the "to nest" channel, and when the
strongest of {forward, left, right} exceeds the fade threshold the agent
turns left only if the left value is strictly greater than both others,
turns right only if the right value is strictly greater than both others,
and keeps its heading in every other case (forward strictly greatest, or
any tie). -/
theorem C8_exploitation_steering (cfg : Config) (prims : MathPrims)
    (sim : SimState) (ant : Ant) :
    (∀ rA rB : ℚ,
      FoodManager.canAntCollectFoodIdx cfg prims sim.foods ant.position = none →
      ObstacleManager.calculateAvoidanceForce cfg prims sim.obstacles
        ant.position = none →
      ¬ rA < ant.explorationRate →
      max (PheromoneSystem.sensePheromone prims sim.pheromoneSystem
          sim.pheromoneSystem.toFoodGrid ant.position ant.direction
          cfg.sensorAngle cfg.sensorDistance).forward
        (max (PheromoneSystem.sensePheromone prims sim.pheromoneSystem
          sim.pheromoneSystem.toFoodGrid ant.position ant.direction
          cfg.sensorAngle cfg.sensorDistance).left
          (PheromoneSystem.sensePheromone prims sim.pheromoneSystem
          sim.pheromoneSystem.toFoodGrid ant.position ant.direction
          cfg.sensorAngle cfg.sensorDistance).right) >
        cfg.pheromoneFadeThreshold →
      (Ant.searchForFood cfg prims sim rA rB ant).1.direction =
        (if (PheromoneSystem.sensePheromone prims sim.pheromoneSystem
              sim.pheromoneSystem.toFoodGrid ant.position ant.direction
              cfg.sensorAngle cfg.sensorDistance).left >
            (PheromoneSystem.sensePheromone prims sim.pheromoneSystem
              sim.pheromoneSystem.toFoodGrid ant.position ant.direction
              cfg.sensorAngle cfg.sensorDistance).forward ∧
            (PheromoneSystem.sensePheromone prims sim.pheromoneSystem
              sim.pheromoneSystem.toFoodGrid ant.position ant.direction
              cfg.sensorAngle cfg.sensorDistance).left >
            (PheromoneSystem.sensePheromone prims sim.pheromoneSystem
              sim.pheromoneSystem.toFoodGrid ant.position ant.direction
              cfg.sensorAngle cfg.sensorDistance).right then
          ant.direction - ant.turnSpeed
        else if (PheromoneSystem.sensePheromone prims sim.pheromoneSystem
              sim.pheromoneSystem.toFoodGrid ant.position ant.direction
              cfg.sensorAngle cfg.sensorDistance).right >
            (PheromoneSystem.sensePheromone prims sim.pheromoneSystem
              sim.pheromoneSystem.toFoodGrid ant.position ant.direction
              cfg.sensorAngle cfg.sensorDistance).forward ∧
            (PheromoneSystem.sensePheromone prims sim.pheromoneSystem
              sim.pheromoneSystem.toFoodGrid ant.position ant.direction
              cfg.sensorAngle cfg.sensorDistance).right >
            (PheromoneSystem.sensePheromone prims sim.pheromoneSystem
              sim.pheromoneSystem.toFoodGrid ant.position ant.direction
              cfg.sensorAngle cfg.sensorDistance).left then
          ant.direction + ant.turnSpeed
        else ant.direction)) ∧
    (∀ rA : ℚ,
      Nest.contains prims sim.nest ant.position 0 = false →
      ObstacleManager.calculateAvoidanceForce cfg prims sim.obstacles
        ant.position = none →
      ¬ Vector.magnitude prims (ant.nestPosition.1 - ant.position.1,
          ant.nestPosition.2 - ant.position.2) < cfg.nestSize * 2 →
      ¬ rA < cfg.returnHomeBias →
      max (PheromoneSystem.sensePheromone prims sim.pheromoneSystem
          sim.pheromoneSystem.toNestGrid ant.position ant.direction
          cfg.sensorAngle cfg.sensorDistance).forward
        (max (PheromoneSystem.sensePheromone prims sim.pheromoneSystem
          sim.pheromoneSystem.toNestGrid ant.position ant.direction
          cfg.sensorAngle cfg.sensorDistance).left
          (PheromoneSystem.sensePheromone prims sim.pheromoneSystem
          sim.pheromoneSystem.toNestGrid ant.position ant.direction
          cfg.sensorAngle cfg.sensorDistance).right) >
        cfg.pheromoneFadeThreshold →
      (Ant.returnToNest cfg prims sim rA ant).1.direction =
        (if (PheromoneSystem.sensePheromone prims sim.pheromoneSystem
              sim.pheromoneSystem.toNestGrid ant.position ant.direction
              cfg.sensorAngle cfg.sensorDistance).left >
            (PheromoneSystem.sensePheromone prims sim.pheromoneSystem
              sim.pheromoneSystem.toNestGrid ant.position ant.direction
              cfg.sensorAngle cfg.sensorDistance).forward ∧
            (PheromoneSystem.sensePheromone prims sim.pheromoneSystem
              sim.pheromoneSystem.toNestGrid ant.position ant.direction
              cfg.sensorAngle cfg.sensorDistance).left >
            (PheromoneSystem.sensePheromone prims sim.pheromoneSystem
              sim.pheromoneSystem.toNestGrid ant.position ant.direction
              cfg.sensorAngle cfg.sensorDistance).right then
          ant.direction - ant.turnSpeed
        else if (PheromoneSystem.sensePheromone prims sim.pheromoneSystem
              sim.pheromoneSystem.toNestGrid ant.position ant.direction
              cfg.sensorAngle cfg.sensorDistance).right >
            (PheromoneSystem.sensePheromone prims sim.pheromoneSystem
              sim.pheromoneSystem.toNestGrid ant.position ant.direction
              cfg.sensorAngle cfg.sensorDistance).forward ∧
            (PheromoneSystem.sensePheromone prims sim.pheromoneSystem
              sim.pheromoneSystem.toNestGrid ant.position ant.direction
              cfg.sensorAngle cfg.sensorDistance).right >
            (PheromoneSystem.sensePheromone prims sim.pheromoneSystem
              sim.pheromoneSystem.toNestGrid ant.position ant.direction
              cfg.sensorAngle cfg.sensorDistance).left then
          ant.direction + ant.turnSpeed
        else ant.direction)) := by
  constructor
  · intro rA rB hfood havoid hexp hmax
    unfold Ant.searchForFood
    rw [hfood, havoid]
    dsimp only
    rw [if_neg hexp, if_pos hmax]
    split_ifs <;> rfl
  · intro rA hnest havoid hfar hbias hmax
    unfold Ant.returnToNest
    rw [hnest, havoid]
    simp only [Bool.false_eq_true, if_false]
    rw [if_neg hfar, if_neg hbias, if_pos hmax]
    split_ifs <;> rfl

end Antland

namespace Antland

/-- A collectable food source used by the agent-layer witnesses. -/
def foodC6 : Food :=
  { position := (0, 0), quantity := 2, initialQuantity := 2, size := 4,
    depleted := false, displayRadius := 5 }

/-- A live searching agent standing on that food source. -/
def antC6 : Ant :=
  { id := 0, nestPosition := (50, 0), position := (0, 0), direction := 0,
    speed := 1, turnSpeed := 3 / 20, size := 3, carryingFood := 0,
    state := AntState.searching, energy := 100, isAlive := true, trail := [],
    trailMaxLength := 10, lastDepositionTime := 0, depositionInterval := 5,
    explorationRate := 1 / 10 }

/-- A simulation state holding that single food source. -/
def simC6 : SimState :=
  { width := 100, height := 100,
    nest := { position := (50, 0), size := 30, foodStored := 0 },
    foods := [foodC6], obstacles := [], pheromoneSystem := psEx }

/-- Witness for `C6_collect_transition`: the agent at the food source finds
it and the collection transition fires exactly as stated. -/
theorem C6_witness :
    FoodManager.canAntCollectFoodIdx (defaultConfig jsPi) primsEx simC6.foods
      antC6.position = some 0 ∧
    ((Ant.searchForFood (defaultConfig jsPi) primsEx simC6 0 0 antC6).1.carryingFood =
      (Food.take primsEx (simC6.foods.getD 0 default) 1).1 ∧
    (Food.take primsEx (simC6.foods.getD 0 default) 1).1 =
      min 1 (simC6.foods.getD 0 default).quantity ∧
    (Ant.searchForFood (defaultConfig jsPi) primsEx simC6 0 0 antC6).2.foods =
      simC6.foods.set 0 (Food.take primsEx (simC6.foods.getD 0 default) 1).2 ∧
    (0 < (Food.take primsEx (simC6.foods.getD 0 default) 1).1 →
      (Ant.searchForFood (defaultConfig jsPi) primsEx simC6 0 0 antC6).1.state =
        AntState.returning ∧
      (Ant.searchForFood (defaultConfig jsPi) primsEx simC6 0 0 antC6).1.direction =
        primsEx.atan2 (antC6.nestPosition.2 - antC6.position.2)
          (antC6.nestPosition.1 - antC6.position.1))) := by
  have hcc : Food.canCollect (defaultConfig jsPi) primsEx foodC6
      antC6.position = true := by
    unfold Food.canCollect Vector.distance Vector.magnitude Vector.subtract
    simp only [foodC6, antC6, primsEx, defaultConfig, Bool.not_false,
      Bool.true_and, decide_eq_true_eq]
    norm_num
  have hf : FoodManager.canAntCollectFoodIdx (defaultConfig jsPi) primsEx
      simC6.foods antC6.position = some 0 := by
    show canAntCollectFoodAux (defaultConfig jsPi) primsEx antC6.position
      [foodC6] 0 = some 0
    unfold canAntCollectFoodAux
    rw [if_pos hcc]
  exact ⟨hf, C6_collect_transition (defaultConfig jsPi) primsEx simC6 0 0
    antC6 0 hf⟩

/-- A live agent one consumption tick away from starving. -/
def antC7 : Ant :=
  { antC6 with energy := 1 / 20 }

/-- Witness for `C7_energy_death`: the starving agent dies in place with an
untouched simulation, and the subsequent colony update (with a failing
spawn draw) removes it. -/
theorem C7_witness :
    antC7.isAlive = true ∧ (defaultConfig jsPi).paused = false ∧
    (defaultConfig jsPi).speedMultiplier = 1 ∧
    antC7.energy = (defaultConfig jsPi).energyConsumption ∧
    ¬ (1 : ℚ) < (defaultConfig jsPi).spawnRate *
      (defaultConfig jsPi).speedMultiplier / 60 ∧
    Ant.update (defaultConfig jsPi) primsEx simC6 0 0 antC7 =
      ({ antC7 with energy := 0, isAlive := false }, simC6) ∧
    (AntColony.update (defaultConfig jsPi) primsEx simC6 (fun _ => (0, 0)) 1
      (0, 0, 0)
      { nestPosition := antC7.nestPosition, ants := [antC7],
        antIdCounter := 1 }).1.ants = [] ∧
    (AntColony.update (defaultConfig jsPi) primsEx simC6 (fun _ => (0, 0)) 1
      (0, 0, 0)
      { nestPosition := antC7.nestPosition, ants := [antC7],
        antIdCounter := 1 }).2 = simC6 := by
  have halive : antC7.isAlive = true := rfl
  have hp : (defaultConfig jsPi).paused = false := rfl
  have hmult : (defaultConfig jsPi).speedMultiplier = 1 := rfl
  have he : antC7.energy = (defaultConfig jsPi).energyConsumption := by
    show (1 : ℚ) / 20 = (0.05 : ℚ)
    norm_num
  have hspawn : ¬ (1 : ℚ) < (defaultConfig jsPi).spawnRate *
      (defaultConfig jsPi).speedMultiplier / 60 := by
    show ¬ (1 : ℚ) < (0.5 : ℚ) * 1 / 60
    norm_num
  have hmain := C7_energy_death (defaultConfig jsPi) primsEx simC6 antC7
    halive hp hmult he
  exact ⟨halive, hp, hmult, he, hspawn, hmain.1 0 0,
    hmain.2 (fun _ => (0, 0)) 1 (0, 0, 0) hspawn⟩

end Antland

namespace Antland

/-- A 4x1 field whose channels both read 10 everywhere, used by the
steering witness. -/
def psC8 : PheromoneSystem :=
  { resolution := 5, cols := 4, rows := 1, toFoodGrid := fun _ => 10,
    toNestGrid := fun _ => 10, dirtyRegions := ∅,
    visualizationNeedsUpdate := false, canvasReady := false }

/-- An agent inside that field, away from its nest. -/
def antC8 : Ant :=
  { antC6 with position := (2, 2) }

/-- A simulation state with no food, no obstacles and that field. -/
def simC8 : SimState :=
  { width := 100, height := 100,
    nest := { position := (50, 0), size := 30, foodStored := 0 },
    foods := [], obstacles := [], pheromoneSystem := psC8 }

/-- Witness for `C8_exploitation_steering`: with every sensor reading 10
(a tie above the fade threshold) both the searching and the returning
exploitation branches keep the agent's heading. -/
theorem C8_witness :
    FoodManager.canAntCollectFoodIdx (defaultConfig jsPi) primsEx simC8.foods
      antC8.position = none ∧
    ObstacleManager.calculateAvoidanceForce (defaultConfig jsPi) primsEx
      simC8.obstacles antC8.position = none ∧
    ¬ (1 / 2 : ℚ) < antC8.explorationRate ∧
    Nest.contains primsEx simC8.nest antC8.position 0 = false ∧
    ¬ Vector.magnitude primsEx (antC8.nestPosition.1 - antC8.position.1,
        antC8.nestPosition.2 - antC8.position.2) <
      (defaultConfig jsPi).nestSize * 2 ∧
    ¬ (1 / 2 : ℚ) < (defaultConfig jsPi).returnHomeBias ∧
    (Ant.searchForFood (defaultConfig jsPi) primsEx simC8 (1 / 2) 0
      antC8).1.direction = antC8.direction ∧
    (Ant.returnToNest (defaultConfig jsPi) primsEx simC8 (1 / 2)
      antC8).1.direction = antC8.direction := by
  have hsF : PheromoneSystem.sensePheromone primsEx simC8.pheromoneSystem
      simC8.pheromoneSystem.toFoodGrid antC8.position antC8.direction
      (defaultConfig jsPi).sensorAngle (defaultConfig jsPi).sensorDistance =
      { forward := 10, left := 10, right := 10 } := by
    unfold PheromoneSystem.sensePheromone PheromoneSystem.getPheromoneAt
      PheromoneSystem.posToIndex
    norm_num [simC8, psC8, antC8, antC6, primsEx, defaultConfig]
  have hsN : PheromoneSystem.sensePheromone primsEx simC8.pheromoneSystem
      simC8.pheromoneSystem.toNestGrid antC8.position antC8.direction
      (defaultConfig jsPi).sensorAngle (defaultConfig jsPi).sensorDistance =
      { forward := 10, left := 10, right := 10 } := by
    unfold PheromoneSystem.sensePheromone PheromoneSystem.getPheromoneAt
      PheromoneSystem.posToIndex
    norm_num [simC8, psC8, antC8, antC6, primsEx, defaultConfig]
  have hfood : FoodManager.canAntCollectFoodIdx (defaultConfig jsPi) primsEx
      simC8.foods antC8.position = none := rfl
  have havoid : ObstacleManager.calculateAvoidanceForce (defaultConfig jsPi)
      primsEx simC8.obstacles antC8.position = none := rfl
  have hexp : ¬ (1 / 2 : ℚ) < antC8.explorationRate := by
    show ¬ (1 / 2 : ℚ) < 1 / 10
    norm_num
  have hnest : Nest.contains primsEx simC8.nest antC8.position 0 = false := by
    unfold Nest.contains Vector.distance Vector.magnitude Vector.subtract
    simp only [simC8, antC8, antC6, primsEx, decide_eq_false_iff_not]
    norm_num
  have hfar : ¬ Vector.magnitude primsEx
      (antC8.nestPosition.1 - antC8.position.1,
       antC8.nestPosition.2 - antC8.position.2) <
      (defaultConfig jsPi).nestSize * 2 := by
    unfold Vector.magnitude
    simp only [antC8, antC6, primsEx, defaultConfig]
    norm_num
  have hbias : ¬ (1 / 2 : ℚ) < (defaultConfig jsPi).returnHomeBias := by
    show ¬ (1 / 2 : ℚ) < (0.5 : ℚ)
    norm_num
  have hmaxF : max (PheromoneSystem.sensePheromone primsEx
        simC8.pheromoneSystem simC8.pheromoneSystem.toFoodGrid antC8.position
        antC8.direction (defaultConfig jsPi).sensorAngle
        (defaultConfig jsPi).sensorDistance).forward
      (max (PheromoneSystem.sensePheromone primsEx simC8.pheromoneSystem
        simC8.pheromoneSystem.toFoodGrid antC8.position antC8.direction
        (defaultConfig jsPi).sensorAngle
        (defaultConfig jsPi).sensorDistance).left
        (PheromoneSystem.sensePheromone primsEx simC8.pheromoneSystem
        simC8.pheromoneSystem.toFoodGrid antC8.position antC8.direction
        (defaultConfig jsPi).sensorAngle
        (defaultConfig jsPi).sensorDistance).right) >
      (defaultConfig jsPi).pheromoneFadeThreshold := by
    rw [hsF]
    show max (10 : ℚ) (max 10 10) > (5 : ℚ)
    norm_num
  have hmaxN : max (PheromoneSystem.sensePheromone primsEx
        simC8.pheromoneSystem simC8.pheromoneSystem.toNestGrid antC8.position
        antC8.direction (defaultConfig jsPi).sensorAngle
        (defaultConfig jsPi).sensorDistance).forward
      (max (PheromoneSystem.sensePheromone primsEx simC8.pheromoneSystem
        simC8.pheromoneSystem.toNestGrid antC8.position antC8.direction
        (defaultConfig jsPi).sensorAngle
        (defaultConfig jsPi).sensorDistance).left
        (PheromoneSystem.sensePheromone primsEx simC8.pheromoneSystem
        simC8.pheromoneSystem.toNestGrid antC8.position antC8.direction
        (defaultConfig jsPi).sensorAngle
        (defaultConfig jsPi).sensorDistance).right) >
      (defaultConfig jsPi).pheromoneFadeThreshold := by
    rw [hsN]
    show max (10 : ℚ) (max 10 10) > (5 : ℚ)
    norm_num
  have h1 := (C8_exploitation_steering (defaultConfig jsPi) primsEx simC8
    antC8).1 (1 / 2) 0 hfood havoid hexp hmaxF
  have h2 := (C8_exploitation_steering (defaultConfig jsPi) primsEx simC8
    antC8).2 (1 / 2) hnest havoid hfar hbias hmaxN
  rw [hsF] at h1
  rw [hsN] at h2
  simp only [lt_self_iff_false, false_and, if_false, gt_iff_lt] at h1 h2
  exact ⟨hfood, havoid, hexp, hnest, hfar, hbias, h1, h2⟩

end Antland
